import Mathlib

/-!
Verification of the newsletter content-synthesis pipeline
(`audioSummarizer.ts`, `transcriptSynthesizer.ts`, `freeformTopicGenerator.ts`
and the newsletter assembler) against its natural-language specification.

Modelling conventions, shared by every definition below:
* a JavaScript string is a Lean `String`; `slice(0, n)` is modelled by
  `jsTake` (character-wise prefix), `trim` by `jsTrim`;
* a JavaScript number appearing where non-finite values can flow is a
  `JSNum` (`ℚ` plus `NaN`/`±Infinity`); already-validated numeric fields
  are plain `ℚ`;
* a rejected promise / thrown error from an injected dependency is
  `Except.error ()`, a resolved value is `Except.ok`;
* an optional value (`undefined`) is `Option`;
* the ambient `Date.now()` clock is an explicit stream `Nat → Int` of
  successive readings, and the locale-dependent `toLocaleDateString`
  formatting is an environment parameter `String → String`, since both are
  outside the program text.
-/

namespace NewsletterGen

/-- JavaScript number: a finite rational, `NaN`, or an infinity. -/
inductive JSNum where
  | nan
  | posInf
  | negInf
  | num (q : ℚ)
deriving DecidableEq, Repr

/-- JS truthiness of a number (`0` and `NaN` are falsy). -/
def JSNum.truthy : JSNum → Bool
  | .nan => false
  | .posInf => true
  | .negInf => true
  | .num q => q ≠ 0

/-- `Number.isFinite`. -/
def JSNum.finite : JSNum → Bool
  | .num _ => true
  | _ => false

/-- The JS comparison `value <= 0` (false on `NaN`). -/
def JSNum.le0 : JSNum → Bool
  | .nan => false
  | .posInf => false
  | .negInf => true
  | .num q => q ≤ 0

/-- The JS comparison `value < 200` (false on `NaN`). -/
def JSNum.lt200 : JSNum → Bool
  | .nan => false
  | .posInf => false
  | .negInf => true
  | .num q => q < 200

/-- `Math.round` (half-up) on a finite number — the floor of `q + 1/2`,
computed as the floor division `⌊(2·num + den) / (2·den)⌋` over the
integers; 0 on the non-finite constructors, which every caller below has
already excluded. -/
def JSNum.round : JSNum → Int
  | .num q => Int.fdiv (2 * q.num + (q.den : Int)) (2 * (q.den : Int))
  | _ => 0

/-- `a || b` on strings (empty string is falsy). -/
def jsOr (a b : String) : String :=
  if a = "" then b else a

/-- `a || b` where `a` may be `undefined`. -/
def jsOrStr (a : Option String) (b : String) : String :=
  match a with
  | none => b
  | some s => if s = "" then b else s

/-- `x ? x : undefined` on an optional string: collapses both `undefined`
and the empty string to `undefined`. -/
def jsStrTruthy : Option String → Option String
  | none => none
  | some s => if s = "" then none else some s

/-- JS truthiness of an optional string. -/
def optStrTruthy : Option String → Bool
  | none => false
  | some s => s ≠ ""

/-- `trim()`: strips leading and trailing whitespace. Implemented by
structural recursion over the character list (the core `String.trim` is
defined by well-founded recursion on byte positions, which the kernel
cannot evaluate). -/
def jsTrim (s : String) : String :=
  String.mk (((s.data.dropWhile Char.isWhitespace).reverse.dropWhile Char.isWhitespace).reverse)

/-- `x?.trim() ?? ""`. -/
def optTrim (s : Option String) : String :=
  ((s.map jsTrim).getD "")

/-- `array.join(sep)`. -/
def jsJoin (sep : String) : List String → String
  | [] => ""
  | [x] => x
  | x :: rest => x ++ sep ++ jsJoin sep rest

/-- `s.slice(0, n)` for `0 ≤ n`: the first `n` characters. -/
def jsTake (s : String) (n : Nat) : String :=
  String.mk (s.data.take n)

/-- Decidable equality of dependency outcomes, for concrete evaluation. -/
instance instDecEqExcept {e a : Type} [DecidableEq e] [DecidableEq a] :
    DecidableEq (Except e a) := fun x y =>
  match x, y with
  | .error u, .error v => if h : u = v then isTrue (by simp [h]) else isFalse (by simp [h])
  | .ok u, .ok v => if h : u = v then isTrue (by simp [h]) else isFalse (by simp [h])
  | .error _, .ok _ => isFalse (by simp)
  | .ok _, .error _ => isFalse (by simp)

theorem jsTake_length (s : String) (n : Nat) : (jsTake s n).length = min n s.length :=
  List.length_take n s.data

theorem jsOr_ne_empty (a : String) {b : String} (hb : b ≠ "") : jsOr a b ≠ "" := by
  unfold jsOr
  split <;> simp_all

theorem jsOrStr_ne_empty (a : Option String) {b : String} (hb : b ≠ "") :
    jsOrStr a b ≠ "" := by
  unfold jsOrStr
  split
  · exact hb
  · split <;> simp_all

/-! ## Domain types (`types/newsletter.ts`, final revision) -/

/-- `AudioMimeType`: `"audio/mpeg" | "audio/wav"`. -/
inductive AudioMimeType where
  | mpeg
  | wav
deriving DecidableEq, Repr

/-- `MeetingAudioUpload`. -/
structure MeetingAudioUpload where
  filename : String
  mimeType : AudioMimeType
  durationSeconds : ℚ
  sizeBytes : ℚ
  url : Option String := none
deriving DecidableEq, Repr

/-- `AudioHighlight`. -/
structure AudioHighlight where
  id : String
  summary : String
  startTimeSeconds : Option ℚ := none
  endTimeSeconds : Option ℚ := none
  confidence : Option ℚ := none
  topics : Option (List String) := none
deriving DecidableEq, Repr

/-- The `source` descriptor embedded in an `AudioHighlightsSummary`
(`Pick<MeetingAudioUpload, "filename" | "mimeType" | "sizeBytes">`). -/
structure AudioSourceDescriptor where
  filename : String
  mimeType : AudioMimeType
  sizeBytes : ℚ
deriving DecidableEq, Repr

/-- `AudioHighlightsSummary`. -/
structure AudioHighlightsSummary where
  transcript : String
  highlights : List AudioHighlight
  durationSeconds : ℚ
  source : AudioSourceDescriptor
  warnings : Option (List String) := none
deriving DecidableEq, Repr

/-! ## `audioSummarizer.ts` -/

/-- `60 * 60` seconds. -/
def MAX_AUDIO_DURATION_SECONDS : ℚ := 3600

/-- `200 * 1024 * 1024` bytes. -/
def MAX_AUDIO_FILE_SIZE_BYTES : ℚ := 209715200

def DEFAULT_MAX_HIGHLIGHTS : Nat := 5

def MAX_HIGHLIGHTS_LIMIT : Nat := 10

/-- `AudioSummarizerErrorCode`. -/
inductive AudioSummarizerErrorCode where
  | AUDIO_NOT_PROVIDED
  | AUDIO_LIMIT_EXCEEDED
  | INVALID_AUDIO_METADATA
  | TRANSCRIPTION_FAILED
  | EMPTY_TRANSCRIPT
  | HIGHLIGHT_GENERATION_FAILED
deriving DecidableEq, Repr

/-- `SummarizerTranscriptionInput`; raw audio bytes are opaque. -/
structure SummarizerTranscriptionInput where
  audio : MeetingAudioUpload
  audioData : Option (List Nat)
deriving Repr

/-- `SummarizerHighlightInput`. -/
structure SummarizerHighlightInput where
  transcript : String
  durationSeconds : ℚ
  maxHighlights : Nat
deriving DecidableEq, Repr

/-- The value an injected `generateHighlights` resolves with: typed as
`AudioHighlight[]` but guarded at runtime with `Array.isArray`, so a
non-array value is representable. -/
inductive HighlightsValue where
  | array (items : List AudioHighlight)
  | nonArray
deriving DecidableEq, Repr

/-- The list an `Array.isArray` guard extracts from a resolved value. -/
def HighlightsValue.toList : HighlightsValue → List AudioHighlight
  | .array items => items
  | .nonArray => []

/-- `AudioSummarizerDependencies`. -/
structure AudioSummarizerDependencies where
  transcribeAudio : SummarizerTranscriptionInput → Except Unit String
  generateHighlights : SummarizerHighlightInput → Except Unit HighlightsValue

/-- `SummarizeMeetingAudioOptions`. -/
structure SummarizeMeetingAudioOptions where
  maxHighlights : Option JSNum := none
deriving DecidableEq, Repr

/-- `normalizeMaxHighlights` (`audioSummarizer.ts`). -/
def normalizeMaxHighlights (value : Option JSNum) : Nat :=
  match value with
  | none => DEFAULT_MAX_HIGHLIGHTS
  | some v =>
    if !v.truthy || v.le0 || !v.finite then DEFAULT_MAX_HIGHLIGHTS
    else
      let rounded := v.round
      if rounded ≤ 0 then DEFAULT_MAX_HIGHLIGHTS
      else min rounded.toNat MAX_HIGHLIGHTS_LIMIT

/-- `options?.maxHighlights`. -/
def optMaxHighlights (options : Option SummarizeMeetingAudioOptions) : Option JSNum :=
  options.bind (·.maxHighlights)

/-- The truncation warning pushed by `summarizeMeetingAudio`. -/
def highlightTruncationWarning (returned resolvedMax : Nat) : String :=
  s!"Returned highlight count ({returned}) exceeded the configured maximum ({resolvedMax}). Results were truncated."

/-- The tail of `summarizeMeetingAudio` after every guard and both
dependency calls have succeeded. -/
def mkAudioSummary (audio : MeetingAudioUpload) (normalizedTranscript : String)
    (hv : HighlightsValue) (maxHighlights : Nat) : AudioHighlightsSummary :=
  let normalizedHighlights := hv.toList
  let warnings :=
    if normalizedHighlights.length > maxHighlights then
      [highlightTruncationWarning normalizedHighlights.length maxHighlights]
    else []
  let limitedHighlights :=
    if normalizedHighlights.length > maxHighlights then
      normalizedHighlights.take maxHighlights
    else normalizedHighlights
  { transcript := normalizedTranscript
    highlights := limitedHighlights
    durationSeconds := audio.durationSeconds
    source := { filename := audio.filename, mimeType := audio.mimeType, sizeBytes := audio.sizeBytes }
    warnings := if warnings.length > 0 then some warnings else none }

/-- `summarizeMeetingAudio` (`audioSummarizer.ts`). -/
def summarizeMeetingAudio (audio : Option MeetingAudioUpload) (audioData : Option (List Nat))
    (deps : AudioSummarizerDependencies) (options : Option SummarizeMeetingAudioOptions) :
    Except AudioSummarizerErrorCode AudioHighlightsSummary :=
  match audio with
  | none => .error .AUDIO_NOT_PROVIDED
  | some audio =>
    if audio.durationSeconds ≤ 0 then .error .INVALID_AUDIO_METADATA
    else if audio.durationSeconds > MAX_AUDIO_DURATION_SECONDS then .error .AUDIO_LIMIT_EXCEEDED
    else if audio.sizeBytes > MAX_AUDIO_FILE_SIZE_BYTES then .error .AUDIO_LIMIT_EXCEEDED
    else
      let maxHighlights := normalizeMaxHighlights (optMaxHighlights options)
      match deps.transcribeAudio { audio := audio, audioData := audioData } with
      | .error _ => .error .TRANSCRIPTION_FAILED
      | .ok transcript =>
        let normalizedTranscript := jsTrim transcript
        if normalizedTranscript = "" then .error .EMPTY_TRANSCRIPT
        else
          match deps.generateHighlights
              { transcript := normalizedTranscript
                durationSeconds := audio.durationSeconds
                maxHighlights := maxHighlights } with
          | .error _ => .error .HIGHLIGHT_GENERATION_FAILED
          | .ok hv => .ok (mkAudioSummary audio normalizedTranscript hv maxHighlights)

/-- Forward run of `summarizeMeetingAudio`: with every guard passed and both
dependency calls resolved, the function returns the assembled summary. -/
theorem summarizeAudio_ok (audio : MeetingAudioUpload) (audioData : Option (List Nat))
    (deps : AudioSummarizerDependencies) (options : Option SummarizeMeetingAudioOptions)
    (t : String) (hv : HighlightsValue)
    (hdur : ¬ audio.durationSeconds ≤ 0) (hmax : ¬ audio.durationSeconds > MAX_AUDIO_DURATION_SECONDS)
    (hsize : ¬ audio.sizeBytes > MAX_AUDIO_FILE_SIZE_BYTES)
    (htr : deps.transcribeAudio { audio := audio, audioData := audioData } = .ok t)
    (htrim : ¬ jsTrim t = "")
    (hgen : deps.generateHighlights
      { transcript := jsTrim t
        durationSeconds := audio.durationSeconds
        maxHighlights := normalizeMaxHighlights (optMaxHighlights options) } = .ok hv) :
    summarizeMeetingAudio (some audio) audioData deps options =
      .ok (mkAudioSummary audio (jsTrim t) hv (normalizeMaxHighlights (optMaxHighlights options))) := by
  simp only [summarizeMeetingAudio]
  simp [hdur, hmax, hsize, htr, htrim, hgen]

/-- Inversion of `summarizeMeetingAudio`: a successful run pins down the
dependency outcomes and the shape of the returned summary. -/
theorem summarizeAudio_ok_inv (audio : MeetingAudioUpload) (audioData : Option (List Nat))
    (deps : AudioSummarizerDependencies) (options : Option SummarizeMeetingAudioOptions)
    (s : AudioHighlightsSummary)
    (h : summarizeMeetingAudio (some audio) audioData deps options = .ok s) :
    ∃ t hv,
      deps.transcribeAudio { audio := audio, audioData := audioData } = .ok t ∧
      jsTrim t ≠ "" ∧
      deps.generateHighlights
        { transcript := jsTrim t
          durationSeconds := audio.durationSeconds
          maxHighlights := normalizeMaxHighlights (optMaxHighlights options) } = .ok hv ∧
      s = mkAudioSummary audio (jsTrim t) hv (normalizeMaxHighlights (optMaxHighlights options)) := by
  simp only [summarizeMeetingAudio] at h
  split at h
  · simp at h
  split at h
  · simp at h
  split at h
  · simp at h
  rcases htr : deps.transcribeAudio { audio := audio, audioData := audioData } with e | t <;>
    rw [htr] at h
  · simp at h
  simp only [] at h
  split at h
  · simp at h
  rcases hgen : deps.generateHighlights
      { transcript := jsTrim t
        durationSeconds := audio.durationSeconds
        maxHighlights := normalizeMaxHighlights (optMaxHighlights options) } with e | hv <;>
    rw [hgen] at h
  · simp at h
  refine ⟨t, hv, rfl, by assumption, hgen, ?_⟩
  cases h
  rfl

/-- The resolved highlight cap, phrased independently of
`normalizeMaxHighlights`: 5 when the option is absent, non-positive,
non-finite, or rounds to zero; otherwise the rounded request capped at 10. -/
def resolvedHighlightCap (value : Option JSNum) : Nat :=
  match value with
  | some (JSNum.num q) =>
    if 0 < q ∧ 0 < (JSNum.num q).round then min (JSNum.num q).round.toNat MAX_HIGHLIGHTS_LIMIT
    else DEFAULT_MAX_HIGHLIGHTS
  | _ => DEFAULT_MAX_HIGHLIGHTS

theorem normalizeMaxHighlights_eq_resolvedHighlightCap (v : Option JSNum) :
    normalizeMaxHighlights v = resolvedHighlightCap v := by
  rcases v with _ | (_ | _ | _ | q)
  · rfl
  · rfl
  · rfl
  · rfl
  · simp only [normalizeMaxHighlights, resolvedHighlightCap, JSNum.truthy, JSNum.le0,
      JSNum.finite, Bool.not_true, Bool.not_false, Bool.or_false, Bool.false_or]
    by_cases hq : 0 < q
    · have h1 : ¬ q ≤ 0 := not_le.mpr hq
      have h2 : ¬ q = 0 := ne_of_gt hq
      by_cases hr : (JSNum.num q).round ≤ 0
      · simp [h1, h2, hr, not_lt.mpr hr]
      · simp [h1, h2, hr, hq, lt_of_not_le hr]
    · have h1 : q ≤ 0 := not_lt.mp hq
      rcases eq_or_lt_of_le h1 with h0 | h0
      · simp [h0.symm]
      · simp [ne_of_lt h0, h1, hq]

/-- The highlight-count bound exactly as claim C7 states it:
`round(requestedMax)` when a positive finite `maxHighlights` option is
given, otherwise 5, capped at 10. -/
def claimedHighlightBoundC7 (value : Option JSNum) : Int :=
  min
    (match value with
     | some (JSNum.num q) => if 0 < q then (JSNum.num q).round else 5
     | _ => 5)
    10

/-- C7 (amended): on every successful run, the returned `durationSeconds`
equals the input audio's `durationSeconds`, and the number of returned
highlights is bounded by the resolved cap — 5 when the `maxHighlights`
option is absent, non-positive, non-finite, **or rounds to zero**, and
otherwise the rounded request capped at 10. -/
theorem audio_summary_duration_and_cap (audio : MeetingAudioUpload)
    (audioData : Option (List Nat)) (deps : AudioSummarizerDependencies)
    (options : Option SummarizeMeetingAudioOptions) (s : AudioHighlightsSummary)
    (h : summarizeMeetingAudio (some audio) audioData deps options = .ok s) :
    s.durationSeconds = audio.durationSeconds ∧
    s.highlights.length ≤ resolvedHighlightCap (optMaxHighlights options) := by
  obtain ⟨t, hv, -, -, -, hs⟩ := summarizeAudio_ok_inv audio audioData deps options s h
  subst hs
  rw [← normalizeMaxHighlights_eq_resolvedHighlightCap]
  unfold mkAudioSummary
  refine ⟨rfl, ?_⟩
  simp only []
  split
  · next hgt => simp [List.length_take, Nat.le_of_lt hgt]
  · next hle => exact Nat.le_of_not_lt hle

/-- Concrete audio input used by the C7 refutation and witnesses. -/
def sampleAudio : MeetingAudioUpload :=
  { filename := "standup.mp3", mimeType := .mpeg, durationSeconds := 60, sizeBytes := 1024 }

/-- A sample extracted highlight. -/
def sampleHighlight (i : Nat) : AudioHighlight :=
  { id := s!"audio-highlight-{i}", summary := s!"Highlight {i}" }

/-- Dependencies whose highlight generator resolves with three items. -/
def sampleAudioDeps : AudioSummarizerDependencies :=
  { transcribeAudio := fun _ => .ok "Team shipped the feature."
    generateHighlights := fun _ =>
      .ok (.array [sampleHighlight 1, sampleHighlight 2, sampleHighlight 3]) }

/-- C7 refutation: with `maxHighlights = 0.4` (positive and finite, rounding
to 0) the claimed bound is 0, yet the run succeeds and returns 3
highlights, because the code resets a rounded-to-zero request back to the
default of 5. -/
theorem c7_counterexample :
    (summarizeMeetingAudio (some sampleAudio) none sampleAudioDeps
        (some { maxHighlights := some (JSNum.num (mkRat 2 5)) })).map
      (fun s => s.highlights.length) = .ok 3 ∧
    claimedHighlightBoundC7 (some (JSNum.num (mkRat 2 5))) = 0 ∧
    ¬ ((3 : Int) ≤ claimedHighlightBoundC7 (some (JSNum.num (mkRat 2 5)))) := by
  refine ⟨?_, by decide, by decide⟩
  decide

/-- Witness for the amended C7 theorem at a concrete successful run. -/
theorem audio_summary_duration_and_cap_witness :
    ∃ s, summarizeMeetingAudio (some sampleAudio) none sampleAudioDeps none = .ok s ∧
      s.durationSeconds = sampleAudio.durationSeconds ∧
      s.highlights.length ≤ resolvedHighlightCap (optMaxHighlights none) := by
  obtain ⟨s, hs⟩ : ∃ s, summarizeMeetingAudio (some sampleAudio) none sampleAudioDeps none =
      .ok s := ⟨_, rfl⟩
  obtain ⟨h1, h2⟩ := audio_summary_duration_and_cap sampleAudio none sampleAudioDeps none s hs
  exact ⟨s, hs, h1, h2⟩

/-- C8: on a successful run, if the injected `generateHighlights` resolved
with more items than the resolved maximum, the returned list is truncated
to exactly that maximum and a warning naming both counts is returned;
otherwise the `warnings` field is absent. -/
theorem audio_highlight_truncation (audio : MeetingAudioUpload)
    (audioData : Option (List Nat)) (deps : AudioSummarizerDependencies)
    (options : Option SummarizeMeetingAudioOptions) (s : AudioHighlightsSummary)
    (hv : HighlightsValue)
    (h : summarizeMeetingAudio (some audio) audioData deps options = .ok s)
    (hgen : deps.generateHighlights
      { transcript := s.transcript
        durationSeconds := audio.durationSeconds
        maxHighlights := normalizeMaxHighlights (optMaxHighlights options) } = .ok hv) :
    (hv.toList.length > normalizeMaxHighlights (optMaxHighlights options) →
      s.highlights = hv.toList.take (normalizeMaxHighlights (optMaxHighlights options)) ∧
      s.highlights.length = normalizeMaxHighlights (optMaxHighlights options) ∧
      s.warnings = some [highlightTruncationWarning hv.toList.length
        (normalizeMaxHighlights (optMaxHighlights options))]) ∧
    (hv.toList.length ≤ normalizeMaxHighlights (optMaxHighlights options) →
      s.highlights = hv.toList ∧ s.warnings = none) := by
  obtain ⟨t, hv', htr, htrim, hgen', hs⟩ := summarizeAudio_ok_inv _ _ _ _ _ h
  subst hs
  have htp : (mkAudioSummary audio (jsTrim t) hv'
      (normalizeMaxHighlights (optMaxHighlights options))).transcript = jsTrim t := rfl
  rw [htp, hgen'] at hgen
  cases hgen
  constructor
  · intro hgt
    refine ⟨?_, ?_, ?_⟩ <;>
      simp [mkAudioSummary, hgt, List.length_take, Nat.le_of_lt hgt]
  · intro hle
    have hngt : ¬ hv.toList.length > normalizeMaxHighlights (optMaxHighlights options) :=
      not_lt.mpr hle
    exact ⟨by simp [mkAudioSummary, hngt], by simp [mkAudioSummary, hngt]⟩

/-- Witness for the C8 theorem: three generated highlights against a
resolved maximum of 2 are truncated to 2 with the expected warning. -/
theorem audio_highlight_truncation_witness :
    ∃ s, summarizeMeetingAudio (some sampleAudio) none sampleAudioDeps
        (some { maxHighlights := some (JSNum.num 2) }) = .ok s ∧
      s.highlights.length = 2 ∧
      s.warnings = some [highlightTruncationWarning 3 2] := by
  obtain ⟨s, hs⟩ : ∃ s, summarizeMeetingAudio (some sampleAudio) none sampleAudioDeps
      (some { maxHighlights := some (JSNum.num 2) }) = .ok s := ⟨_, rfl⟩
  have hgen : sampleAudioDeps.generateHighlights
      { transcript := s.transcript
        durationSeconds := sampleAudio.durationSeconds
        maxHighlights := normalizeMaxHighlights
          (optMaxHighlights (some { maxHighlights := some (JSNum.num 2) })) } =
      .ok (.array [sampleHighlight 1, sampleHighlight 2, sampleHighlight 3]) := rfl
  obtain ⟨h1, -⟩ := audio_highlight_truncation sampleAudio none sampleAudioDeps
    (some { maxHighlights := some (JSNum.num 2) }) s
    (.array [sampleHighlight 1, sampleHighlight 2, sampleHighlight 3]) hs hgen
  obtain ⟨-, h2, h3⟩ := h1 (by decide)
  refine ⟨s, hs, ?_, ?_⟩
  · rw [h2]; rfl
  · rw [h3]; rfl

/-- C10: when the injected `generateHighlights` resolves with a non-array
value, `summarizeMeetingAudio` still succeeds, with an empty highlight
list and no warnings. -/
theorem audio_nonArray_highlights (audio : MeetingAudioUpload)
    (audioData : Option (List Nat)) (deps : AudioSummarizerDependencies)
    (options : Option SummarizeMeetingAudioOptions) (t : String)
    (hdur : ¬ audio.durationSeconds ≤ 0)
    (hmax : ¬ audio.durationSeconds > MAX_AUDIO_DURATION_SECONDS)
    (hsize : ¬ audio.sizeBytes > MAX_AUDIO_FILE_SIZE_BYTES)
    (htr : deps.transcribeAudio { audio := audio, audioData := audioData } = .ok t)
    (htrim : ¬ jsTrim t = "")
    (hgen : deps.generateHighlights
      { transcript := jsTrim t
        durationSeconds := audio.durationSeconds
        maxHighlights := normalizeMaxHighlights (optMaxHighlights options) } = .ok .nonArray) :
    ∃ s, summarizeMeetingAudio (some audio) audioData deps options = .ok s ∧
      s.highlights = [] ∧ s.warnings = none := by
  refine ⟨_, summarizeAudio_ok audio audioData deps options t .nonArray
    hdur hmax hsize htr htrim hgen, ?_, ?_⟩ <;>
    simp [mkAudioSummary, HighlightsValue.toList]

/-- Dependencies whose highlight generator resolves with a non-array value. -/
def sampleNonArrayDeps : AudioSummarizerDependencies :=
  { transcribeAudio := fun _ => .ok "Weekly recap."
    generateHighlights := fun _ => .ok .nonArray }

/-- Witness for the C10 theorem at a concrete run. -/
theorem audio_nonArray_highlights_witness :
    ∃ s, summarizeMeetingAudio (some sampleAudio) none sampleNonArrayDeps none = .ok s ∧
      s.highlights = [] ∧ s.warnings = none :=
  audio_nonArray_highlights sampleAudio none sampleNonArrayDeps none "Weekly recap."
    (by decide) (by decide) (by decide) rfl (by decide) rfl

/-! ## `transcriptSynthesizer.ts` -/

/-- `SynthesizedContentSource`: `"recap" | "transcript" | "both"`. -/
inductive SynthesizedContentSource where
  | recap
  | transcript
  | both
deriving DecidableEq, Repr

/-- `MeetingRecapInput`; `text` is `Option` because the code reads it as
`meetingRecap?.text?.trim()`. -/
structure MeetingRecapInput where
  text : Option String
  author : Option String := none
  submittedAt : Option String := none
deriving DecidableEq, Repr

/-- `MeetingTranscriptInput`. -/
structure MeetingTranscriptInput where
  text : Option String
  source : Option String := none
  submittedAt : Option String := none
deriving DecidableEq, Repr

/-- A decision as resolved by the injected `extractDecisions` before
sanitization: `id`/`summary`/`source` may be absent at runtime and
`source` may hold an arbitrary (possibly invalid) tag. -/
structure RawDecision where
  id : Option String := none
  summary : Option String := none
  source : Option String := none
  rationale : Option String := none
  confidence : Option ℚ := none
  supportingEvidence : Option String := none
deriving DecidableEq, Repr

/-- `SynthesizedDecision` after sanitization. -/
structure SynthesizedDecision where
  id : String
  summary : String
  source : SynthesizedContentSource
  rationale : Option String := none
  confidence : Option ℚ := none
  supportingEvidence : Option String := none
deriving DecidableEq, Repr

/-- An action item as resolved by `extractActionItems` before sanitization. -/
structure RawActionItem where
  id : Option String := none
  summary : Option String := none
  owner : Option String := none
  dueDate : Option String := none
  status : Option String := none
  source : Option String := none
deriving DecidableEq, Repr

/-- `ActionItem` after sanitization (`status` stays an uninspected tag). -/
structure ActionItem where
  id : String
  summary : String
  owner : Option String := none
  dueDate : Option String := none
  status : Option String := none
  source : Option SynthesizedContentSource := none
deriving DecidableEq, Repr

/-- An insight as resolved by `extractInsights` before sanitization. -/
structure RawInsight where
  id : Option String := none
  summary : Option String := none
  source : Option String := none
  quote : Option String := none
  category : Option String := none
deriving DecidableEq, Repr

/-- `SynthesizedInsight` after sanitization. -/
structure SynthesizedInsight where
  id : String
  summary : String
  source : SynthesizedContentSource
  quote : Option String := none
  category : Option String := none
deriving DecidableEq, Repr

/-- `TranscriptSynthesisMetadata`. -/
structure TranscriptSynthesisMetadata where
  usedRecap : Bool
  usedTranscript : Bool
  combinedCharacterCount : Nat
  truncatedInput : Option Bool := none
  warnings : Option (List String) := none
deriving DecidableEq, Repr

/-- `TranscriptSynthesisResult`. -/
structure TranscriptSynthesisResult where
  summary : String
  decisions : List SynthesizedDecision
  actionItems : List ActionItem
  insights : List SynthesizedInsight
  metadata : TranscriptSynthesisMetadata
deriving DecidableEq, Repr

def MAX_COMBINED_TEXT_LENGTH : Nat := 20000

def DEFAULT_SUMMARY_MAX_LENGTH : Nat := 1000

/-- `TranscriptSynthesizerErrorCode`. -/
inductive TranscriptSynthesizerErrorCode where
  | NO_CONTENT_PROVIDED
  | SUMMARY_FAILED
  | DECISION_EXTRACTION_FAILED
  | ACTION_ITEM_EXTRACTION_FAILED
  | INSIGHT_EXTRACTION_FAILED
deriving DecidableEq, Repr

/-- `BaseSynthesisInput`. -/
structure BaseSynthesisInput where
  combinedText : String
  recapText : String
  transcriptText : String
deriving DecidableEq, Repr

/-- `SummarizeCombinedContentInput`. -/
structure SummarizeCombinedContentInput where
  combinedText : String
  recapText : String
  transcriptText : String
  maxLength : Nat
deriving DecidableEq, Repr

/-- `TranscriptSynthesizerDependencies`; the extraction results are
`Option` lists because the sanitizers guard them with `Array.isArray`. -/
structure TranscriptSynthesizerDependencies where
  summarize : SummarizeCombinedContentInput → Except Unit String
  extractDecisions : BaseSynthesisInput → Except Unit (Option (List RawDecision))
  extractActionItems : BaseSynthesisInput → Except Unit (Option (List RawActionItem))
  extractInsights : Option (BaseSynthesisInput → Except Unit (Option (List RawInsight))) := none

/-- `SynthesizeMeetingContentOptions`. -/
structure SynthesizeMeetingContentOptions where
  summaryMaxLength : Option JSNum := none
deriving DecidableEq, Repr

/-- `truncateCombinedText`: the truncated text and the `wasTruncated` flag. -/
def truncateCombinedText (value : String) : String × Bool :=
  if value = "" then ("", false)
  else if value.length ≤ MAX_COMBINED_TEXT_LENGTH then (value, false)
  else (jsTake value MAX_COMBINED_TEXT_LENGTH, true)

/-- `normalizeSummaryMaxLength`. -/
def normalizeSummaryMaxLength (value : Option JSNum) : Nat :=
  match value with
  | none => DEFAULT_SUMMARY_MAX_LENGTH
  | some v =>
    if !v.truthy || v.le0 || !v.finite then DEFAULT_SUMMARY_MAX_LENGTH
    else min v.round.toNat DEFAULT_SUMMARY_MAX_LENGTH

/-- `normalizeSource`: any tag other than the three enumerated values
(including an absent one) becomes `both`. -/
def normalizeSource (source : Option String) : SynthesizedContentSource :=
  match source with
  | some "recap" => .recap
  | some "transcript" => .transcript
  | some "both" => .both
  | _ => .both

/-- `x?.trim() || undefined`: trims, collapsing blank results to absent. -/
def trimOrUndef (s : Option String) : Option String :=
  jsStrTruthy (s.map jsTrim)

/-- `sanitizeDecisions`. -/
def sanitizeDecisions (decisions : Option (List RawDecision)) : List SynthesizedDecision :=
  match decisions with
  | none => []
  | some l =>
    (l.enum.map (fun p =>
      { id := p.2.id.getD s!"decision-{p.1 + 1}"
        summary := optTrim p.2.summary
        source := normalizeSource p.2.source
        rationale := trimOrUndef p.2.rationale
        confidence := p.2.confidence
        supportingEvidence := trimOrUndef p.2.supportingEvidence })).filter
      (fun d => d.summary ≠ "")

/-- `sanitizeActionItems` (note: `dueDate` is *not* trimmed by the code,
only collapsed to absent when the raw value is falsy). -/
def sanitizeActionItems (items : Option (List RawActionItem)) : List ActionItem :=
  match items with
  | none => []
  | some l =>
    (l.enum.map (fun p =>
      { id := p.2.id.getD s!"action-{p.1 + 1}"
        summary := optTrim p.2.summary
        owner := trimOrUndef p.2.owner
        dueDate := jsStrTruthy p.2.dueDate
        status := jsStrTruthy p.2.status
        source := some (normalizeSource p.2.source) })).filter
      (fun i => i.summary ≠ "")

/-- `sanitizeInsights`. -/
def sanitizeInsights (insights : Option (List RawInsight)) : List SynthesizedInsight :=
  match insights with
  | none => []
  | some l =>
    (l.enum.map (fun p =>
      { id := p.2.id.getD s!"insight-{p.1 + 1}"
        summary := optTrim p.2.summary
        source := normalizeSource p.2.source
        quote := trimOrUndef p.2.quote
        category := trimOrUndef p.2.category })).filter
      (fun i => i.summary ≠ "")

/-- `combined = [recapText, transcriptText].filter(Boolean).join("\n\n")`. -/
def combineTexts (recapText transcriptText : String) : String :=
  jsJoin "\n\n" (([recapText, transcriptText]).filter (· ≠ ""))

/-- The `synthesisInput` record handed to every extraction dependency. -/
def synthesisInputOf (recapText transcriptText : String) : BaseSynthesisInput :=
  { combinedText := (truncateCombinedText (combineTexts recapText transcriptText)).1
    recapText := recapText
    transcriptText := transcriptText }

/-- The warning recorded when the combined text was truncated. -/
def combinedTruncationWarning : String :=
  s!"Combined recap and transcript content exceeded {MAX_COMBINED_TEXT_LENGTH} characters and was truncated for processing."

/-- The tail of `synthesizeMeetingContent` once every dependency call has
succeeded. -/
def mkSynthesisResult (recapText transcriptText : String) (summary : String)
    (decisions : Option (List RawDecision)) (actionItems : Option (List RawActionItem))
    (insights : Option (List RawInsight)) : TranscriptSynthesisResult :=
  let tr := truncateCombinedText (combineTexts recapText transcriptText)
  let warnings := if tr.2 then [combinedTruncationWarning] else []
  { summary := jsTrim summary
    decisions := sanitizeDecisions decisions
    actionItems := sanitizeActionItems actionItems
    insights := sanitizeInsights insights
    metadata :=
      { usedRecap := recapText ≠ ""
        usedTranscript := transcriptText ≠ ""
        combinedCharacterCount := tr.1.length
        truncatedInput := if tr.2 then some true else none
        warnings := if warnings.length > 0 then some warnings else none } }

/-- `extractInsights` is optional: when absent the insights list stays the
empty array. -/
def extractInsightsOutcome (deps : TranscriptSynthesizerDependencies)
    (input : BaseSynthesisInput) : Except Unit (Option (List RawInsight)) :=
  match deps.extractInsights with
  | none => .ok (some [])
  | some f => f input

/-- `meetingRecap?.text?.trim() ?? ""`. -/
def recapTextOf (meetingRecap : Option MeetingRecapInput) : String :=
  optTrim (meetingRecap.bind (·.text))

/-- `transcript?.text?.trim() ?? ""`. -/
def transcriptTextOf (transcript : Option MeetingTranscriptInput) : String :=
  optTrim (transcript.bind (·.text))

/-- `synthesizeMeetingContent` (`transcriptSynthesizer.ts`). -/
def synthesizeMeetingContent (meetingRecap : Option MeetingRecapInput)
    (transcript : Option MeetingTranscriptInput)
    (deps : TranscriptSynthesizerDependencies)
    (options : Option SynthesizeMeetingContentOptions) :
    Except TranscriptSynthesizerErrorCode TranscriptSynthesisResult :=
  let recapText := recapTextOf meetingRecap
  let transcriptText := transcriptTextOf transcript
  if recapText = "" ∧ transcriptText = "" then .error .NO_CONTENT_PROVIDED
  else
    let synthesisInput := synthesisInputOf recapText transcriptText
    let summaryMaxLength := normalizeSummaryMaxLength (options.bind (·.summaryMaxLength))
    match deps.summarize
        { combinedText := synthesisInput.combinedText
          recapText := recapText
          transcriptText := transcriptText
          maxLength := summaryMaxLength } with
    | .error _ => .error .SUMMARY_FAILED
    | .ok summary =>
      match deps.extractDecisions synthesisInput with
      | .error _ => .error .DECISION_EXTRACTION_FAILED
      | .ok decisions =>
        match deps.extractActionItems synthesisInput with
        | .error _ => .error .ACTION_ITEM_EXTRACTION_FAILED
        | .ok actionItems =>
          match extractInsightsOutcome deps synthesisInput with
          | .error _ => .error .INSIGHT_EXTRACTION_FAILED
          | .ok insights =>
            .ok (mkSynthesisResult recapText transcriptText summary decisions actionItems insights)

/-- The summarization input built by `synthesizeMeetingContent`. -/
def summarizeInputOf (meetingRecap : Option MeetingRecapInput)
    (transcript : Option MeetingTranscriptInput)
    (options : Option SynthesizeMeetingContentOptions) : SummarizeCombinedContentInput :=
  { combinedText := (synthesisInputOf (recapTextOf meetingRecap) (transcriptTextOf transcript)).combinedText
    recapText := recapTextOf meetingRecap
    transcriptText := transcriptTextOf transcript
    maxLength := normalizeSummaryMaxLength (options.bind (·.summaryMaxLength)) }

/-- Forward run of `synthesizeMeetingContent` from successful dependency
outcomes. -/
theorem synthesize_ok (meetingRecap : Option MeetingRecapInput)
    (transcript : Option MeetingTranscriptInput)
    (deps : TranscriptSynthesizerDependencies)
    (options : Option SynthesizeMeetingContentOptions)
    (summary : String) (decisions : Option (List RawDecision))
    (actionItems : Option (List RawActionItem)) (insights : Option (List RawInsight))
    (hne : ¬ (recapTextOf meetingRecap = "" ∧ transcriptTextOf transcript = ""))
    (hs : deps.summarize (summarizeInputOf meetingRecap transcript options) = .ok summary)
    (hd : deps.extractDecisions
      (synthesisInputOf (recapTextOf meetingRecap) (transcriptTextOf transcript)) = .ok decisions)
    (ha : deps.extractActionItems
      (synthesisInputOf (recapTextOf meetingRecap) (transcriptTextOf transcript)) = .ok actionItems)
    (hi : extractInsightsOutcome deps
      (synthesisInputOf (recapTextOf meetingRecap) (transcriptTextOf transcript)) = .ok insights) :
    synthesizeMeetingContent meetingRecap transcript deps options =
      .ok (mkSynthesisResult (recapTextOf meetingRecap) (transcriptTextOf transcript)
        summary decisions actionItems insights) := by
  simp only [synthesizeMeetingContent, summarizeInputOf] at *
  simp [hne, hs, hd, ha, hi]

/-- Inversion of `synthesizeMeetingContent`: a successful run pins down the
dependency outcomes and the result shape. -/
theorem synthesize_ok_inv (meetingRecap : Option MeetingRecapInput)
    (transcript : Option MeetingTranscriptInput)
    (deps : TranscriptSynthesizerDependencies)
    (options : Option SynthesizeMeetingContentOptions)
    (r : TranscriptSynthesisResult)
    (h : synthesizeMeetingContent meetingRecap transcript deps options = .ok r) :
    ¬ (recapTextOf meetingRecap = "" ∧ transcriptTextOf transcript = "") ∧
    ∃ summary decisions actionItems insights,
      deps.summarize (summarizeInputOf meetingRecap transcript options) = .ok summary ∧
      deps.extractDecisions
        (synthesisInputOf (recapTextOf meetingRecap) (transcriptTextOf transcript)) = .ok decisions ∧
      deps.extractActionItems
        (synthesisInputOf (recapTextOf meetingRecap) (transcriptTextOf transcript)) = .ok actionItems ∧
      extractInsightsOutcome deps
        (synthesisInputOf (recapTextOf meetingRecap) (transcriptTextOf transcript)) = .ok insights ∧
      r = mkSynthesisResult (recapTextOf meetingRecap) (transcriptTextOf transcript)
        summary decisions actionItems insights := by
  simp only [synthesizeMeetingContent, summarizeInputOf] at h ⊢
  split at h
  · simp at h
  next hne =>
  refine ⟨hne, ?_⟩
  rcases hs : deps.summarize
      { combinedText := (synthesisInputOf (recapTextOf meetingRecap)
          (transcriptTextOf transcript)).combinedText
        recapText := recapTextOf meetingRecap
        transcriptText := transcriptTextOf transcript
        maxLength := normalizeSummaryMaxLength (options.bind (·.summaryMaxLength)) }
    with e | summary <;> rw [hs] at h
  · simp at h
  rcases hd : deps.extractDecisions
      (synthesisInputOf (recapTextOf meetingRecap) (transcriptTextOf transcript))
    with e | decisions <;> rw [hd] at h
  · simp at h
  rcases ha : deps.extractActionItems
      (synthesisInputOf (recapTextOf meetingRecap) (transcriptTextOf transcript))
    with e | actionItems <;> rw [ha] at h
  · simp at h
  rcases hi : extractInsightsOutcome deps
      (synthesisInputOf (recapTextOf meetingRecap) (transcriptTextOf transcript))
    with e | insights <;> rw [hi] at h
  · simp at h
  refine ⟨summary, decisions, actionItems, insights, rfl, rfl, rfl, rfl, ?_⟩
  cases h
  rfl

/-- Every injected dependency of the synthesizer resolves on every input. -/
def SynthDepsSucceed (deps : TranscriptSynthesizerDependencies) : Prop :=
  (∀ i, ∃ r, deps.summarize i = .ok r) ∧
  (∀ i, ∃ r, deps.extractDecisions i = .ok r) ∧
  (∀ i, ∃ r, deps.extractActionItems i = .ok r) ∧
  (∀ f, deps.extractInsights = some f → ∀ i, ∃ r, f i = .ok r)

/-- C2: `synthesizeMeetingContent` fails with `NO_CONTENT_PROVIDED` exactly
when both trimmed texts are empty, and succeeds whenever at least one is
non-empty and every injected dependency resolves. -/
theorem synthesis_no_content_iff (meetingRecap : Option MeetingRecapInput)
    (transcript : Option MeetingTranscriptInput)
    (deps : TranscriptSynthesizerDependencies)
    (options : Option SynthesizeMeetingContentOptions) :
    (synthesizeMeetingContent meetingRecap transcript deps options =
        .error .NO_CONTENT_PROVIDED ↔
      recapTextOf meetingRecap = "" ∧ transcriptTextOf transcript = "") ∧
    (SynthDepsSucceed deps →
      ¬ (recapTextOf meetingRecap = "" ∧ transcriptTextOf transcript = "") →
      ∃ r, synthesizeMeetingContent meetingRecap transcript deps options = .ok r) := by
  constructor
  · constructor
    · intro h
      by_contra hne
      simp only [synthesizeMeetingContent] at h
      rw [if_neg hne] at h
      split at h
      · simp at h
      split at h
      · simp at h
      split at h
      · simp at h
      split at h
      · simp at h
      · simp at h
    · intro hboth
      rw [synthesizeMeetingContent, if_pos hboth]
  · rintro ⟨h1, h2, h3, h4⟩ hne
    obtain ⟨summary, hs⟩ := h1 (summarizeInputOf meetingRecap transcript options)
    obtain ⟨decisions, hd⟩ :=
      h2 (synthesisInputOf (recapTextOf meetingRecap) (transcriptTextOf transcript))
    obtain ⟨actionItems, ha⟩ :=
      h3 (synthesisInputOf (recapTextOf meetingRecap) (transcriptTextOf transcript))
    have hi : ∃ insights, extractInsightsOutcome deps
        (synthesisInputOf (recapTextOf meetingRecap) (transcriptTextOf transcript)) =
        .ok insights := by
      unfold extractInsightsOutcome
      rcases hins : deps.extractInsights with _ | f
      · exact ⟨some [], rfl⟩
      · exact h4 f hins _
    obtain ⟨insights, hi⟩ := hi
    exact ⟨_, synthesize_ok meetingRecap transcript deps options
      summary decisions actionItems insights hne hs hd ha hi⟩

/-- Dependencies of the synthesizer that always resolve. -/
def sampleSynthDeps : TranscriptSynthesizerDependencies :=
  { summarize := fun _ => .ok "We shipped the new feature."
    extractDecisions := fun _ => .ok (some [])
    extractActionItems := fun _ => .ok (some [])
    extractInsights := some (fun _ => .ok (some [])) }

theorem sampleSynthDeps_succeed : SynthDepsSucceed sampleSynthDeps := by
  refine ⟨fun i => ⟨_, rfl⟩, fun i => ⟨_, rfl⟩, fun i => ⟨_, rfl⟩, fun f hf i => ?_⟩
  cases hf
  exact ⟨_, rfl⟩

/-- A recap whose text survives trimming. -/
def sampleRecap : MeetingRecapInput :=
  { text := some "We decided to launch in Q3." }

/-- Witness for C2: with a non-empty recap and succeeding dependencies the
synthesis succeeds. -/
theorem synthesis_no_content_iff_witness :
    ∃ r, synthesizeMeetingContent (some sampleRecap) none sampleSynthDeps none = .ok r :=
  (synthesis_no_content_iff (some sampleRecap) none sampleSynthDeps none).2
    sampleSynthDeps_succeed (by decide)

/-- C3: on a successful synthesis, when the blank-line-joined combination
of the trimmed inputs exceeds 20,000 characters, the text handed to the
extraction dependencies and the reported character count are truncated to
exactly 20,000, `truncatedInput` is `true` and a warning is recorded;
otherwise `truncatedInput` is absent. -/
theorem synthesis_truncation (meetingRecap : Option MeetingRecapInput)
    (transcript : Option MeetingTranscriptInput)
    (deps : TranscriptSynthesizerDependencies)
    (options : Option SynthesizeMeetingContentOptions)
    (r : TranscriptSynthesisResult)
    (h : synthesizeMeetingContent meetingRecap transcript deps options = .ok r) :
    ((combineTexts (recapTextOf meetingRecap) (transcriptTextOf transcript)).length >
        MAX_COMBINED_TEXT_LENGTH →
      r.metadata.combinedCharacterCount = MAX_COMBINED_TEXT_LENGTH ∧
      (synthesisInputOf (recapTextOf meetingRecap)
        (transcriptTextOf transcript)).combinedText.length = MAX_COMBINED_TEXT_LENGTH ∧
      r.metadata.truncatedInput = some true ∧
      r.metadata.warnings = some [combinedTruncationWarning]) ∧
    ((combineTexts (recapTextOf meetingRecap) (transcriptTextOf transcript)).length ≤
        MAX_COMBINED_TEXT_LENGTH →
      r.metadata.combinedCharacterCount =
        (combineTexts (recapTextOf meetingRecap) (transcriptTextOf transcript)).length ∧
      r.metadata.truncatedInput = none) := by
  obtain ⟨-, summary, decisions, actionItems, insights, -, -, -, -, hr⟩ :=
    synthesize_ok_inv meetingRecap transcript deps options r h
  subst hr
  constructor
  · intro hgt
    have hne : ¬ combineTexts (recapTextOf meetingRecap) (transcriptTextOf transcript) = "" := by
      intro h0
      rw [h0] at hgt
      simp [MAX_COMBINED_TEXT_LENGTH, String.length] at hgt
    have hnle : ¬ (combineTexts (recapTextOf meetingRecap)
        (transcriptTextOf transcript)).length ≤ MAX_COMBINED_TEXT_LENGTH := not_le.mpr hgt
    refine ⟨?_, ?_, ?_, ?_⟩ <;>
      simp [mkSynthesisResult, synthesisInputOf, truncateCombinedText, hne, hnle,
        jsTake_length, Nat.le_of_lt hgt]
  · intro hle
    by_cases h0 : combineTexts (recapTextOf meetingRecap) (transcriptTextOf transcript) = ""
    · constructor <;>
        simp [mkSynthesisResult, truncateCombinedText, h0, String.length]
    · constructor <;>
        simp [mkSynthesisResult, truncateCombinedText, h0, hle]

/-- Witness for C3 at a concrete small input: no truncation occurs and
`truncatedInput` is absent. -/
theorem synthesis_truncation_witness :
    ∃ r, synthesizeMeetingContent (some sampleRecap) none sampleSynthDeps none = .ok r ∧
      r.metadata.combinedCharacterCount =
        (combineTexts (recapTextOf (some sampleRecap)) (transcriptTextOf none)).length ∧
      r.metadata.truncatedInput = none := by
  obtain ⟨r, hr⟩ : ∃ r, synthesizeMeetingContent (some sampleRecap) none sampleSynthDeps none =
      .ok r := ⟨_, rfl⟩
  obtain ⟨-, h2⟩ := synthesis_truncation (some sampleRecap) none sampleSynthDeps none r hr
  obtain ⟨ha, hb⟩ := h2 (by decide)
  exact ⟨r, hr, ha, hb⟩

theorem map_filter_eq_filterMap {α β : Type} (f : α → β) (p : β → Bool) (l : List α) :
    (l.map f).filter p = l.filterMap (fun x => if p (f x) then some (f x) else none) := by
  induction l with
  | nil => rfl
  | cons a t ih =>
    simp only [List.map_cons, List.filter_cons, List.filterMap_cons]
    cases hp : p (f a) <;> simp [hp, ih]

/-- Source normalization as claim C9 states it: any value outside
`{recap, transcript, both}` (including an absent one) becomes `both`. -/
def specNormalizeSource (s : Option String) : SynthesizedContentSource :=
  if s = some "recap" then .recap
  else if s = some "transcript" then .transcript
  else if s = some "both" then .both
  else .both

/-- An optional text field, trimmed and collapsed to absent when blank. -/
def specTrimmedField (s : Option String) : Option String :=
  match s with
  | none => none
  | some t => if jsTrim t = "" then none else some (jsTrim t)

/-- An optional field collapsed to absent when falsy, left untrimmed. -/
def specFalsyField (s : Option String) : Option String :=
  match s with
  | none => none
  | some t => if t = "" then none else some t

theorem optTrim_eq (s : Option String) : optTrim s = jsTrim (s.getD "") := by
  cases s <;> rfl

theorem trimOrUndef_eq_specTrimmedField (s : Option String) :
    trimOrUndef s = specTrimmedField s := by
  cases s <;> rfl

theorem jsStrTruthy_eq_specFalsyField (s : Option String) :
    jsStrTruthy s = specFalsyField s := by
  cases s <;> rfl

theorem normalizeSource_eq_specNormalizeSource (s : Option String) :
    normalizeSource s = specNormalizeSource s := by
  rcases s with _ | t
  · rfl
  · unfold normalizeSource specNormalizeSource
    by_cases h1 : t = "recap"
    · simp [h1]
    by_cases h2 : t = "transcript"
    · simp [h1, h2]
    by_cases h3 : t = "both"
    · simp [h1, h2, h3]
    · simp [h1, h2, h3]

/-- The sanitization of one decision list as claim C9 states it: walk the
list with its positions, drop every entry whose trimmed summary is empty,
give an entry whose id is absent the positional fallback id, and send any
source tag outside the three enumerated values to `both`; optional text
fields are trimmed and collapsed to absent when blank. -/
def specSanitizeDecisions (l : List RawDecision) : List SynthesizedDecision :=
  l.enum.filterMap (fun p =>
    if jsTrim (p.2.summary.getD "") = "" then none
    else some
      { id := p.2.id.getD s!"decision-{p.1 + 1}"
        summary := jsTrim (p.2.summary.getD "")
        source := specNormalizeSource p.2.source
        rationale := specTrimmedField p.2.rationale
        confidence := p.2.confidence
        supportingEvidence := specTrimmedField p.2.supportingEvidence })

/-- The sanitization of one action-item list as claim C9 states it
(`dueDate` and `status` are only collapsed when falsy — the code does not
trim them). -/
def specSanitizeActionItems (l : List RawActionItem) : List ActionItem :=
  l.enum.filterMap (fun p =>
    if jsTrim (p.2.summary.getD "") = "" then none
    else some
      { id := p.2.id.getD s!"action-{p.1 + 1}"
        summary := jsTrim (p.2.summary.getD "")
        owner := specTrimmedField p.2.owner
        dueDate := specFalsyField p.2.dueDate
        status := specFalsyField p.2.status
        source := some (specNormalizeSource p.2.source) })

/-- The sanitization of one insight list as claim C9 states it. -/
def specSanitizeInsights (l : List RawInsight) : List SynthesizedInsight :=
  l.enum.filterMap (fun p =>
    if jsTrim (p.2.summary.getD "") = "" then none
    else some
      { id := p.2.id.getD s!"insight-{p.1 + 1}"
        summary := jsTrim (p.2.summary.getD "")
        source := specNormalizeSource p.2.source
        quote := specTrimmedField p.2.quote
        category := specTrimmedField p.2.category })

/-- C9: the sanitizers applied by `synthesizeMeetingContent` coincide, on
every array resolved by an extraction dependency, with the independently
phrased rules: empty-after-trim summaries are dropped, absent ids get the
positional `decision-<n>`, `action-<n>` or `insight-<n>` fallback, and any source tag
outside `{recap, transcript, both}` normalizes to `both`. -/
theorem sanitizers_meet_spec (ld : List RawDecision) (la : List RawActionItem)
    (li : List RawInsight) :
    sanitizeDecisions (some ld) = specSanitizeDecisions ld ∧
    sanitizeActionItems (some la) = specSanitizeActionItems la ∧
    sanitizeInsights (some li) = specSanitizeInsights li := by
  refine ⟨?_, ?_, ?_⟩
  · rw [sanitizeDecisions, specSanitizeDecisions, map_filter_eq_filterMap]
    apply List.filterMap_congr
    intro p _
    simp only [optTrim_eq, trimOrUndef_eq_specTrimmedField,
      normalizeSource_eq_specNormalizeSource]
    by_cases hs : jsTrim (p.2.summary.getD "") = "" <;> simp [hs]
  · rw [sanitizeActionItems, specSanitizeActionItems, map_filter_eq_filterMap]
    apply List.filterMap_congr
    intro p _
    simp only [optTrim_eq, trimOrUndef_eq_specTrimmedField, jsStrTruthy_eq_specFalsyField,
      normalizeSource_eq_specNormalizeSource]
    by_cases hs : jsTrim (p.2.summary.getD "") = "" <;> simp [hs]
  · rw [sanitizeInsights, specSanitizeInsights, map_filter_eq_filterMap]
    apply List.filterMap_congr
    intro p _
    simp only [optTrim_eq, trimOrUndef_eq_specTrimmedField,
      normalizeSource_eq_specNormalizeSource]
    by_cases hs : jsTrim (p.2.summary.getD "") = "" <;> simp [hs]

/-! ## `freeformTopicGenerator.ts` (drafter) -/

/-- `FreeformTopicPrompt`. -/
structure FreeformTopicPrompt where
  topic : String
  instructions : Option String := none
deriving DecidableEq, Repr

/-- `FreeformTopicSuggestion`. -/
structure FreeformTopicSuggestion where
  prompt : Option FreeformTopicPrompt := none
  title : String
  body : String
  confidence : Option ℚ := none
  toneGuidance : Option String := none
  isPromptAligned : Option Bool := none
deriving DecidableEq, Repr

def DEFAULT_TITLE : String := "Additional Topic"

def DEFAULT_BODY : String :=
  "Use this space to add any announcements or highlights that didn\x27t fit into the main sections. Update the copy as needed before sharing."

def DEFAULT_TONE_GUIDANCE : String :=
  "Friendly internal tone: highlight wins, appreciate contributors, and reinforce next steps."

def DEFAULT_MAX_BODY_LENGTH : Nat := 1500

/-- `FreeformTopicContext`. -/
structure FreeformTopicContext where
  summary : Option String := none
  decisions : Option (List SynthesizedDecision) := none
  insights : Option (List SynthesizedInsight) := none
  actionItems : Option (List ActionItem) := none
  audioHighlights : Option (List AudioHighlight) := none
deriving DecidableEq, Repr

/-- An id/summary pair in a normalized drafting context. -/
structure ContextDigestItem where
  id : String
  summary : String
deriving DecidableEq, Repr

/-- A normalized context action item (optionally with an owner). -/
structure ContextActionItem where
  id : String
  summary : String
  owner : Option String := none
deriving DecidableEq, Repr

/-- The `context` field of a `DraftFreeformTopicInput`. -/
structure DraftContext where
  summary : Option String
  decisions : List ContextDigestItem
  insights : List ContextDigestItem
  actionItems : List ContextActionItem
  audioHighlights : List ContextDigestItem
  tone : String
  maxBodyLength : Nat
deriving DecidableEq, Repr

/-- `DraftFreeformTopicInput`. -/
structure DraftFreeformTopicInput where
  prompt : Option FreeformTopicPrompt
  context : DraftContext
deriving DecidableEq, Repr

/-- `DraftFreeformTopicResult` (`null` and `undefined` both collapse to
`Option.none`). -/
structure DraftFreeformTopicResult where
  title : Option String := none
  body : Option String := none
  confidence : Option JSNum := none
  toneGuidance : Option String := none
  isPromptAligned : Option Bool := none
deriving DecidableEq, Repr

/-- `GenerateFreeformTopicOptions`. -/
structure GenerateFreeformTopicOptions where
  maxBodyLength : Option JSNum := none
  defaultToneGuidance : Option String := none
deriving DecidableEq, Repr

/-- `GenerateFreeformTopicParams`. -/
structure GenerateFreeformTopicParams where
  prompt : Option FreeformTopicPrompt := none
  context : Option FreeformTopicContext := none
deriving DecidableEq, Repr

/-- `value.replace(/\s+/g, " ")`: every whitespace run becomes one space. -/
def collapseWhitespace (s : String) : String :=
  String.mk (s.data.foldr
    (fun c acc =>
      if c.isWhitespace then
        if acc.head? = some ' ' then acc else ' ' :: acc
      else c :: acc)
    [])

/-- `sanitizeText`: falsy input gives `""`, otherwise whitespace runs are
collapsed and the result trimmed. -/
def sanitizeText (value : Option String) : String :=
  match value with
  | none => ""
  | some s => if s = "" then "" else jsTrim (collapseWhitespace s)

/-- `truncateBody`. -/
def truncateBody (body : String) (maxLength : Nat) : String :=
  if body.length ≤ maxLength then body
  else jsTrim (jsTake body (maxLength - 1)) ++ "…"

/-- `normalizeConfidence`: non-finite values are dropped, finite ones are
clamped into `[0, 1]`. -/
def normalizeConfidence (confidence : Option JSNum) : Option ℚ :=
  match confidence with
  | none => none
  | some v =>
    match v with
    | .num q =>
      let bounded := if q ≤ 1 then q else 1
      some (if bounded ≤ 0 then 0 else bounded)
    | _ => none

/-- `normalizeMaxBodyLength`: default 1500, floor 200, ceiling 3000. -/
def normalizeMaxBodyLength (maxBodyLength : Option JSNum) : Nat :=
  match maxBodyLength with
  | none => DEFAULT_MAX_BODY_LENGTH
  | some v =>
    if !v.truthy || !v.finite || v.lt200 then DEFAULT_MAX_BODY_LENGTH
    else min v.round.toNat 3000

/-- `normalizePrompt`: trims both fields; a prompt whose trimmed fields are
both empty is treated as absent, and a blank topic with non-blank
instructions defaults to `DEFAULT_TITLE`. -/
def normalizePrompt (prompt : Option FreeformTopicPrompt) : Option FreeformTopicPrompt :=
  match prompt with
  | none => none
  | some p =>
    let topic := jsTrim p.topic
    let instructions := jsStrTruthy (p.instructions.map jsTrim)
    if topic = "" ∧ instructions = none then none
    else some
      { topic := if topic = "" then DEFAULT_TITLE else topic
        instructions := instructions }

/-- The record produced by `normalizeContext`. -/
structure NormalizedFreeformContext where
  summary : Option String
  decisions : List ContextDigestItem
  insights : List ContextDigestItem
  actionItems : List ContextActionItem
  audioHighlights : List ContextDigestItem
deriving DecidableEq, Repr

/-- `normalizeContext`: trims summaries, drops entries lacking an id or a
summary, keeps a trimmed owner only when non-blank. -/
def normalizeContext (context : Option FreeformTopicContext) : NormalizedFreeformContext :=
  { summary := (context.bind (·.summary)).map jsTrim
    decisions :=
      match context.bind (·.decisions) with
      | none => []
      | some l =>
        (l.map (fun d => ContextDigestItem.mk d.id (jsTrim d.summary))).filter
          (fun item => item.id ≠ "" && item.summary ≠ "")
    insights :=
      match context.bind (·.insights) with
      | none => []
      | some l =>
        (l.map (fun i => ContextDigestItem.mk i.id (jsTrim i.summary))).filter
          (fun item => item.id ≠ "" && item.summary ≠ "")
    actionItems :=
      match context.bind (·.actionItems) with
      | none => []
      | some l =>
        (l.map (fun a =>
          ContextActionItem.mk a.id (jsTrim a.summary) (jsStrTruthy (a.owner.map jsTrim)))).filter
          (fun item => item.id ≠ "" && item.summary ≠ "")
    audioHighlights :=
      match context.bind (·.audioHighlights) with
      | none => []
      | some l =>
        (l.map (fun h => ContextDigestItem.mk h.id (jsTrim h.summary))).filter
          (fun item => item.id ≠ "" && item.summary ≠ "") }

/-- `buildSuggestion`. -/
def buildSuggestion (prompt : Option FreeformTopicPrompt)
    (draft : Option DraftFreeformTopicResult) (toneFallback : String)
    (maxBodyLength : Nat) : FreeformTopicSuggestion :=
  let title := jsOr (sanitizeText (draft.bind (·.title)))
    (jsOrStr (prompt.map (·.topic)) DEFAULT_TITLE)
  let body := truncateBody (jsOr (sanitizeText (draft.bind (·.body))) DEFAULT_BODY) maxBodyLength
  let toneGuidance := jsOr (sanitizeText (draft.bind (·.toneGuidance))) toneFallback
  let confidence := normalizeConfidence (draft.bind (·.confidence))
  let isPromptAligned :=
    match draft.bind (·.isPromptAligned) with
    | some b => b
    | none => prompt.isSome
  { prompt := prompt
    title := title
    body := body
    toneGuidance := some toneGuidance
    confidence := confidence
    isPromptAligned := some isPromptAligned }

/-- `buildFallbackSuggestion`. -/
def buildFallbackSuggestion (prompt : Option FreeformTopicPrompt)
    (toneFallback : String) : FreeformTopicSuggestion :=
  { prompt := prompt
    title := jsOrStr (prompt.map (·.topic)) DEFAULT_TITLE
    body := DEFAULT_BODY
    toneGuidance := some toneFallback
    isPromptAligned := some prompt.isSome }

/-- `createFreeformTopicGenerator` applied to one request: normalizes the
prompt and context, invokes `draftCopy`, and falls back deterministically
when drafting rejects. -/
def createFreeformTopicGenerator
    (draftCopy : DraftFreeformTopicInput → Except Unit DraftFreeformTopicResult)
    (options : Option GenerateFreeformTopicOptions)
    (params : GenerateFreeformTopicParams) : FreeformTopicSuggestion :=
  let normalizedPrompt := normalizePrompt params.prompt
  let normalizedContext := normalizeContext params.context
  let fallbackTone := jsOr (optTrim (options.bind (·.defaultToneGuidance))) DEFAULT_TONE_GUIDANCE
  let maxBodyLength := normalizeMaxBodyLength (options.bind (·.maxBodyLength))
  match draftCopy
      { prompt := normalizedPrompt
        context :=
          { summary := normalizedContext.summary
            decisions := normalizedContext.decisions
            insights := normalizedContext.insights
            actionItems := normalizedContext.actionItems
            audioHighlights := normalizedContext.audioHighlights
            tone := fallbackTone
            maxBodyLength := maxBodyLength } } with
  | .ok draft => buildSuggestion normalizedPrompt (some draft) fallbackTone maxBodyLength
  | .error _ => buildFallbackSuggestion normalizedPrompt fallbackTone

/-! ## The newsletter assembler (`freeformTopicGenerator.ts`, second half) -/

/-- `NewsletterSection`. -/
structure NewsletterSection where
  id : String
  title : String
  body : String
  highlights : Option (List String) := none
deriving DecidableEq, Repr

/-- `ActionItemsSection` (a `NewsletterSection` carrying its items). -/
structure ActionItemsSection where
  id : String
  title : String
  body : String
  highlights : Option (List String) := none
  items : List ActionItem
deriving DecidableEq, Repr

/-- `StructuredNewsletter`. -/
structure StructuredNewsletter where
  introduction : NewsletterSection
  mainUpdates : List NewsletterSection
  actionItems : ActionItemsSection
  closing : NewsletterSection
  freeformTopic : FreeformTopicSuggestion
deriving DecidableEq, Repr

/-- `NewsletterGenerationRequest`. -/
structure NewsletterGenerationRequest where
  audio : Option MeetingAudioUpload := none
  meetingRecap : MeetingRecapInput
  transcript : MeetingTranscriptInput
  freeformTopicPrompt : Option FreeformTopicPrompt := none
deriving DecidableEq, Repr

/-- The response metadata; `createdAt` carries the instant captured by the
clock (its ISO rendering is injective and not modelled). -/
structure NewsletterResponseMetadata where
  createdAt : Int
  processingTimeMs : Option Int := none
  tokensConsumed : Option Nat := none
  audioSummaryIncluded : Bool
deriving DecidableEq, Repr

/-- `NewsletterGenerationResponse`. -/
structure NewsletterGenerationResponse where
  sections : StructuredNewsletter
  metadata : NewsletterResponseMetadata
  warnings : Option (List String) := none
deriving DecidableEq, Repr

/-- `SummarizeAudioParams`. -/
structure SummarizeAudioParams where
  audio : Option MeetingAudioUpload := none
  audioData : Option (List Nat) := none
deriving Repr

/-- `SynthesizeContentParams`. -/
structure SynthesizeContentParams where
  meetingRecap : Option MeetingRecapInput := none
  transcript : Option MeetingTranscriptInput := none
deriving DecidableEq, Repr

/-- `AssembleNewsletterDependencies`. The injected `now` yields the clock
instant; the stateful `generateId` factory is modelled per call site. -/
structure AssembleNewsletterDependencies where
  summarizeAudio : Option (SummarizeAudioParams → Except Unit AudioHighlightsSummary) := none
  synthesizeContent : SynthesizeContentParams → Except Unit TranscriptSynthesisResult
  generateFreeformTopic : Option (GenerateFreeformTopicParams → Except Unit FreeformTopicSuggestion) := none
  generateId : Option (Unit → String) := none
  now : Option (Unit → Int) := none

def DEFAULT_FREEFORM_TONE_GUIDANCE : String :=
  "Friendly internal tone: highlight wins, appreciate contributors, and reinforce next steps."

/-- `generateId ? generateId() : fallback`. -/
def genId (generateId : Option (Unit → String)) (fallback : String) : String :=
  match generateId with
  | some f => f ()
  | none => fallback

/-- `Math.floor` on a rational. -/
def ratFloor (q : ℚ) : Int :=
  Int.fdiv q.num q.den

/-- `formatTimestamp`: `M:SS` from a (finite) second count. -/
def formatTimestamp (seconds : ℚ) : String :=
  if seconds < 0 then "0:00"
  else
    let totalSeconds := ratFloor seconds
    let minutes := totalSeconds / 60
    let remainingSeconds := totalSeconds % 60
    let padded :=
      if remainingSeconds < 10 then "0" ++ toString remainingSeconds
      else toString remainingSeconds
    s!"{minutes}:{padded}"

/-- `formatDecisions`. -/
def formatDecisions (decisions : List SynthesizedDecision) : Option String :=
  if decisions.length = 0 then none
  else some (jsJoin "\n" (decisions.map (fun decision =>
    let segments := [decision.summary] ++
      (match jsStrTruthy decision.rationale with
       | some r => ["Why it matters: " ++ r]
       | none => [])
    "• " ++ jsJoin " — " segments)))

/-- `formatInsightsAndHighlights`. -/
def formatInsightsAndHighlights (insights : List SynthesizedInsight)
    (audioSummary : Option AudioHighlightsSummary) : Option String :=
  let lines :=
    (if insights.length ≠ 0 then
      insights.map (fun insight =>
        let segments := [insight.summary] ++
          (match jsStrTruthy insight.quote with
           | some q => ["Quote: \"" ++ q ++ "\""]
           | none => [])
        "• " ++ jsJoin " — " segments)
     else []) ++
    (match audioSummary with
     | none => []
     | some a =>
       if a.highlights.length ≠ 0 then
         a.highlights.map (fun highlight =>
           let segments := [highlight.summary] ++
             (match highlight.startTimeSeconds with
              | some t => ["Timestamp: " ++ formatTimestamp t]
              | none => [])
           "• " ++ jsJoin " — " segments)
       else [])
  if lines.length = 0 then none else some (jsJoin "\n" lines)

/-- `buildIntroductionSection`. -/
def buildIntroductionSection (transcriptSynthesis : TranscriptSynthesisResult)
    (audioSummary : Option AudioHighlightsSummary)
    (generateId : Option (Unit → String)) : NewsletterSection :=
  let summaryText := jsTrim transcriptSynthesis.summary
  let introLines :=
    (if summaryText ≠ "" then [summaryText] else []) ++
    (match audioSummary with
     | none => []
     | some a =>
       if a.highlights.length ≠ 0 then
         ["Audio callouts:\n" ++
           jsJoin "\n" ((a.highlights.take 3).map (fun highlight => "• " ++ highlight.summary))]
       else [])
  let introLines :=
    if introLines.length = 0 then
      ["This week\x27s update covers the latest progress and next steps from the team."]
    else introLines
  { id := genId generateId "introduction"
    title := "Introduction"
    body := jsJoin "\n\n" introLines }

/-- The generic placeholder body of a `Main Updates` fallback section. -/
def MAIN_UPDATES_PLACEHOLDER_BODY : String :=
  "No major updates were captured this cycle. Please review the action items and closing notes for next steps."

/-- `buildMainUpdatesSections`. -/
def buildMainUpdatesSections (transcriptSynthesis : TranscriptSynthesisResult)
    (audioSummary : Option AudioHighlightsSummary)
    (generateId : Option (Unit → String)) : List NewsletterSection :=
  let sections :=
    (match jsStrTruthy (formatDecisions transcriptSynthesis.decisions) with
     | some decisionsBody =>
       [{ id := genId generateId "main-updates-decisions"
          title := "Key Decisions"
          body := decisionsBody }]
     | none => []) ++
    (match jsStrTruthy (formatInsightsAndHighlights transcriptSynthesis.insights audioSummary) with
     | some insightsBody =>
       [{ id := genId generateId "main-updates-highlights"
          title := "Highlights & Insights"
          body := insightsBody
          highlights := audioSummary.map (fun a => a.highlights.map (·.summary)) }]
     | none => [])
  if sections.length = 0 then
    [{ id := genId generateId "main-updates-overview"
       title := "Main Updates"
       body := MAIN_UPDATES_PLACEHOLDER_BODY }]
  else sections

/-- `buildClosingSection`. -/
def buildClosingSection (transcriptSynthesis : TranscriptSynthesisResult)
    (actionItemCount : Nat) (audioSummary : Option AudioHighlightsSummary)
    (generateId : Option (Unit → String)) : NewsletterSection :=
  let lines :=
    (if actionItemCount > 0 then
      [s!"Please review the {actionItemCount} action item(s) listed above and confirm ownership."]
     else []) ++
    (match audioSummary.bind (·.warnings) with
     | some ws => if ws.length ≠ 0 then ws.map (fun w => "Note: " ++ w) else []
     | none => [])
  let lines :=
    if lines.length = 0 ∧ transcriptSynthesis.summary ≠ "" then
      ["Thank you for staying aligned. Reach out if any clarifications are needed before the next check-in."]
    else lines
  let lines :=
    if lines.length = 0 then ["Thanks for reading and keep up the great work!"]
    else lines
  { id := genId generateId "closing"
    title := "Closing"
    body := jsJoin "\n\n" lines }

/-- `normalizeActionItems`: blank summaries fall back positionally; a
trimmed owner or due date replaces the original only when non-blank (the
object spread keeps the original field otherwise). -/
def normalizeActionItems (actionItems : List ActionItem) : List ActionItem :=
  if actionItems.length = 0 then []
  else
    actionItems.enum.map (fun p =>
      let summary := jsTrim p.2.summary
      let owner := jsStrTruthy (p.2.owner.map jsTrim)
      let dueDate := jsStrTruthy (p.2.dueDate.map jsTrim)
      { p.2 with
        summary := if summary = "" then s!"Follow up item {p.1 + 1}" else summary
        owner := match owner with
          | some o => some o
          | none => p.2.owner
        dueDate := match dueDate with
          | some d => some d
          | none => p.2.dueDate })

/-- `formatActionItemLine`; `formatDueDate` is the locale-dependent
environment formatter. -/
def formatActionItemLine (formatDueDate : String → String) (item : ActionItem) : String :=
  let details :=
    (match jsStrTruthy item.owner with
     | some o => ["Owner: " ++ o]
     | none => []) ++
    (match jsStrTruthy item.dueDate with
     | some d => ["Due: " ++ formatDueDate d]
     | none => [])
  let detailsSuffix := if details.length ≠ 0 then " — " ++ jsJoin " | " details else ""
  "• " ++ item.summary ++ detailsSuffix

/-- `buildActionItemsSection`. -/
def buildActionItemsSection (actionItems : List ActionItem)
    (generateId : Option (Unit → String)) (formatDueDate : String → String) :
    ActionItemsSection :=
  let normalizedItems := normalizeActionItems actionItems
  let lines := normalizedItems.map (formatActionItemLine formatDueDate)
  let body :=
    if lines.length ≠ 0 then jsJoin "\n" lines
    else "No action items were captured for this update. Check in with the team to confirm next steps."
  { id := genId generateId "action-items"
    title := "Action Items"
    body := body
    items := normalizedItems }

/-- `buildFreeformSuggestion` (the assembler's own fallback). -/
def buildFreeformSuggestion (prompt : Option FreeformTopicPrompt) : FreeformTopicSuggestion :=
  let promptTopic := prompt.map (fun p => jsTrim p.topic)
  let promptInstructions := (prompt.bind (·.instructions)).map jsTrim
  let title := jsOrStr promptTopic "Additional Topic"
  let intro := promptInstructions
  let bodySegments :=
    (match jsStrTruthy intro with
     | some i => [i]
     | none => []) ++
    ["Use this space to add any announcements or highlights that didn\x27t fit into the main sections. Update the copy as needed before sharing."]
  { prompt :=
      if optStrTruthy promptTopic || optStrTruthy promptInstructions then
        some
          { topic := promptTopic.getD "Additional Topic"
            instructions := jsStrTruthy promptInstructions }
      else none
    title := title
    body := jsJoin "\n\n" bodySegments
    isPromptAligned := some (optStrTruthy promptTopic || optStrTruthy promptInstructions)
    toneGuidance := some DEFAULT_FREEFORM_TONE_GUIDANCE }

/-- The params the assembler hands to `generateFreeformTopic`. -/
def freeformParamsOf (prompt : Option FreeformTopicPrompt)
    (audioSummary : Option AudioHighlightsSummary)
    (transcriptSynthesis : TranscriptSynthesisResult) : GenerateFreeformTopicParams :=
  { prompt := prompt
    context := some
      { summary := some transcriptSynthesis.summary
        decisions := some transcriptSynthesis.decisions
        insights := some transcriptSynthesis.insights
        actionItems := some transcriptSynthesis.actionItems
        audioHighlights := audioSummary.map (·.highlights) } }

/-- `maybeGenerateFreeformTopic`: absent dependency or a rejected draft
yields no suggestion; a resolved suggestion gets its tone guidance
defaulted. -/
def maybeGenerateFreeformTopic
    (generateFreeformTopic : Option (GenerateFreeformTopicParams → Except Unit FreeformTopicSuggestion))
    (prompt : Option FreeformTopicPrompt) (audioSummary : Option AudioHighlightsSummary)
    (transcriptSynthesis : TranscriptSynthesisResult) : Option FreeformTopicSuggestion :=
  match generateFreeformTopic with
  | none => none
  | some generate =>
    match generate (freeformParamsOf prompt audioSummary transcriptSynthesis) with
    | .error _ => none
    | .ok suggestion =>
      some { suggestion with
        toneGuidance := some (jsOr (optTrim suggestion.toneGuidance) DEFAULT_FREEFORM_TONE_GUIDANCE) }

/-- `maybeSummarizeAudio`: skipped without a dependency or audio, and a
failure is swallowed. -/
def maybeSummarizeAudio
    (summarizeAudio : Option (SummarizeAudioParams → Except Unit AudioHighlightsSummary))
    (params : SummarizeAudioParams) : Option AudioHighlightsSummary :=
  match summarizeAudio, params.audio with
  | none, _ => none
  | some _, none => none
  | some g, some _ =>
    match g params with
    | .ok s => some s
    | .error _ => none

/-- `collectWarnings`: audio warnings first, then synthesis warnings. -/
def collectWarnings (audioSummary : Option AudioHighlightsSummary)
    (transcriptSynthesis : TranscriptSynthesisResult) : List String :=
  (match audioSummary.bind (·.warnings) with
   | some l => if l.length ≠ 0 then l else []
   | none => []) ++
  (match transcriptSynthesis.metadata.warnings with
   | some l => if l.length ≠ 0 then l else []
   | none => [])

/-- `buildStructuredNewsletter`. -/
def buildStructuredNewsletter (request : NewsletterGenerationRequest)
    (audioSummary : Option AudioHighlightsSummary)
    (transcriptSynthesis : TranscriptSynthesisResult)
    (generateId : Option (Unit → String))
    (freeformSuggestion : Option FreeformTopicSuggestion)
    (formatDueDate : String → String) : StructuredNewsletter :=
  let introduction := buildIntroductionSection transcriptSynthesis audioSummary generateId
  let mainUpdates := buildMainUpdatesSections transcriptSynthesis audioSummary generateId
  let actionItems := buildActionItemsSection transcriptSynthesis.actionItems generateId formatDueDate
  let closing := buildClosingSection transcriptSynthesis actionItems.items.length audioSummary generateId
  let freeformTopic := freeformSuggestion.getD (buildFreeformSuggestion request.freeformTopicPrompt)
  { introduction := introduction
    mainUpdates := mainUpdates
    actionItems := actionItems
    closing := closing
    freeformTopic := freeformTopic }

/-- The index of the ambient `Date.now()` reading taken when computing the
elapsed time: reading 0 is the start; when `now` is absent the default
clock consumes reading 1 for `createdAt` first. -/
def ambientEndIndex (deps : AssembleNewsletterDependencies) : Nat :=
  match deps.now with
  | some _ => 1
  | none => 2

/-- `(now ?? defaultNowFactory)()`: the injected clock when present,
otherwise the ambient reading taken between start and end. -/
def createdAtOf (deps : AssembleNewsletterDependencies) (dateNow : Nat → Int) : Int :=
  match deps.now with
  | some f => f ()
  | none => dateNow 1

/-- The response built once content synthesis has succeeded. -/
def mkAssembleResponse (request : NewsletterGenerationRequest)
    (audioSummary : Option AudioHighlightsSummary)
    (transcriptSynthesis : TranscriptSynthesisResult)
    (deps : AssembleNewsletterDependencies) (dateNow : Nat → Int)
    (formatDueDate : String → String) : NewsletterGenerationResponse :=
  let freeformSuggestion := maybeGenerateFreeformTopic deps.generateFreeformTopic
    request.freeformTopicPrompt audioSummary transcriptSynthesis
  let structured := buildStructuredNewsletter request audioSummary transcriptSynthesis
    deps.generateId freeformSuggestion formatDueDate
  let createdAt := createdAtOf deps dateNow
  let processingTimeMs := dateNow (ambientEndIndex deps) - dateNow 0
  let warnings := collectWarnings audioSummary transcriptSynthesis
  { sections := structured
    metadata :=
      { createdAt := createdAt
        processingTimeMs := some processingTimeMs
        tokensConsumed := none
        audioSummaryIncluded := audioSummary.isSome }
    warnings := if warnings.length > 0 then some warnings else none }

/-- `assembleNewsletter`: `dateNow` is the ambient `Date.now()` stream
(reading 0 taken at entry), `formatDueDate` the locale formatter; a
failing content synthesis propagates, every other stage degrades. -/
def assembleNewsletter (request : NewsletterGenerationRequest)
    (audioData : Option (List Nat)) (deps : AssembleNewsletterDependencies)
    (dateNow : Nat → Int) (formatDueDate : String → String) :
    Except Unit NewsletterGenerationResponse :=
  let audioSummary := maybeSummarizeAudio deps.summarizeAudio
    { audio := request.audio, audioData := audioData }
  match deps.synthesizeContent
      { meetingRecap := some request.meetingRecap
        transcript := some request.transcript } with
  | .error e => .error e
  | .ok transcriptSynthesis =>
    .ok (mkAssembleResponse request audioSummary transcriptSynthesis deps dateNow formatDueDate)

theorem string_data_append (a b : String) : (a ++ b).data = a.data ++ b.data := by
  cases a
  cases b
  rfl

theorem append_ne_empty_of_right (a : String) {b : String} (hb : b ≠ "") :
    a ++ b ≠ "" := by
  intro hc
  have hd := congrArg String.data hc
  rw [string_data_append] at hd
  rcases b with ⟨bl⟩
  have hbl : bl = [] := (List.append_eq_nil.mp hd).2
  subst hbl
  exact hb rfl

theorem truncateBody_ne_empty (body : String) (maxLength : Nat) (h : body ≠ "") :
    truncateBody body maxLength ≠ "" := by
  unfold truncateBody
  split
  · exact h
  · exact append_ne_empty_of_right _ (by decide)

theorem buildSuggestion_nonempty (prompt : Option FreeformTopicPrompt)
    (draft : Option DraftFreeformTopicResult) (toneFallback : String) (maxBodyLength : Nat) :
    (buildSuggestion prompt draft toneFallback maxBodyLength).title ≠ "" ∧
    (buildSuggestion prompt draft toneFallback maxBodyLength).body ≠ "" := by
  constructor
  · exact jsOr_ne_empty _ (jsOrStr_ne_empty _ (by decide))
  · exact truncateBody_ne_empty _ _ (jsOr_ne_empty _ (by decide))

theorem buildFallbackSuggestion_nonempty (prompt : Option FreeformTopicPrompt)
    (toneFallback : String) :
    (buildFallbackSuggestion prompt toneFallback).title ≠ "" ∧
    (buildFallbackSuggestion prompt toneFallback).body ≠ "" :=
  ⟨jsOrStr_ne_empty _ (by decide), show DEFAULT_BODY ≠ "" by decide⟩

theorem jsJoin_ne_empty_last (sep : String) (l : List String) (d : String) (hd : d ≠ "") :
    jsJoin sep (l ++ [d]) ≠ "" := by
  induction l with
  | nil => simpa [jsJoin] using hd
  | cons x xs ih =>
    rcases xs with _ | ⟨y, ys⟩
    · simp only [List.nil_append, List.cons_append, jsJoin]
      exact append_ne_empty_of_right _ hd
    · simp only [List.cons_append, jsJoin]
      exact append_ne_empty_of_right _ ih

theorem createFreeformTopicGenerator_nonempty
    (draftCopy : DraftFreeformTopicInput → Except Unit DraftFreeformTopicResult)
    (options : Option GenerateFreeformTopicOptions) (params : GenerateFreeformTopicParams) :
    (createFreeformTopicGenerator draftCopy options params).title ≠ "" ∧
    (createFreeformTopicGenerator draftCopy options params).body ≠ "" := by
  simp only [createFreeformTopicGenerator]
  split
  · exact buildSuggestion_nonempty _ _ _ _
  · exact buildFallbackSuggestion_nonempty _ _

theorem buildFreeformSuggestion_nonempty (prompt : Option FreeformTopicPrompt) :
    (buildFreeformSuggestion prompt).title ≠ "" ∧
    (buildFreeformSuggestion prompt).body ≠ "" :=
  ⟨jsOrStr_ne_empty _ (by decide), jsJoin_ne_empty_last _ _ _ (by decide)⟩

theorem buildMainUpdatesSections_ne_nil (transcriptSynthesis : TranscriptSynthesisResult)
    (audioSummary : Option AudioHighlightsSummary) (generateId : Option (Unit → String)) :
    buildMainUpdatesSections transcriptSynthesis audioSummary generateId ≠ [] := by
  simp only [buildMainUpdatesSections]
  split
  · simp
  · next hlen =>
    intro hc
    exact hlen (by rw [hc]; rfl)

/-- Projection helpers on the assembled response. -/
theorem mkAssembleResponse_mainUpdates (request : NewsletterGenerationRequest)
    (audioSummary : Option AudioHighlightsSummary) (synth : TranscriptSynthesisResult)
    (deps : AssembleNewsletterDependencies) (dateNow : Nat → Int) (fmt : String → String) :
    (mkAssembleResponse request audioSummary synth deps dateNow fmt).sections.mainUpdates =
      buildMainUpdatesSections synth audioSummary deps.generateId := rfl

theorem mkAssembleResponse_freeformTopic (request : NewsletterGenerationRequest)
    (audioSummary : Option AudioHighlightsSummary) (synth : TranscriptSynthesisResult)
    (deps : AssembleNewsletterDependencies) (dateNow : Nat → Int) (fmt : String → String) :
    (mkAssembleResponse request audioSummary synth deps dateNow fmt).sections.freeformTopic =
      (maybeGenerateFreeformTopic deps.generateFreeformTopic request.freeformTopicPrompt
        audioSummary synth).getD (buildFreeformSuggestion request.freeformTopicPrompt) := rfl

theorem mkAssembleResponse_metadata (request : NewsletterGenerationRequest)
    (audioSummary : Option AudioHighlightsSummary) (synth : TranscriptSynthesisResult)
    (deps : AssembleNewsletterDependencies) (dateNow : Nat → Int) (fmt : String → String) :
    (mkAssembleResponse request audioSummary synth deps dateNow fmt).metadata =
      { createdAt := createdAtOf deps dateNow
        processingTimeMs := some (dateNow (ambientEndIndex deps) - dateNow 0)
        tokensConsumed := none
        audioSummaryIncluded := audioSummary.isSome } := rfl

/-- Inversion of `assembleNewsletter`: a successful run pins down the
synthesis outcome and the response shape. -/
theorem assemble_ok_inv (request : NewsletterGenerationRequest)
    (audioData : Option (List Nat)) (deps : AssembleNewsletterDependencies)
    (dateNow : Nat → Int) (formatDueDate : String → String)
    (resp : NewsletterGenerationResponse)
    (h : assembleNewsletter request audioData deps dateNow formatDueDate = .ok resp) :
    ∃ transcriptSynthesis,
      deps.synthesizeContent
        { meetingRecap := some request.meetingRecap
          transcript := some request.transcript } = .ok transcriptSynthesis ∧
      resp = mkAssembleResponse request
        (maybeSummarizeAudio deps.summarizeAudio
          { audio := request.audio, audioData := audioData })
        transcriptSynthesis deps dateNow formatDueDate := by
  simp only [assembleNewsletter] at h
  rcases hsy : deps.synthesizeContent
      { meetingRecap := some request.meetingRecap
        transcript := some request.transcript } with e | synth <;> rw [hsy] at h
  · simp at h
  · refine ⟨synth, rfl, ?_⟩
    cases h
    rfl

/-- Inversion of `maybeGenerateFreeformTopic` returning a suggestion. -/
theorem maybeGenerate_some_inv
    (generateFreeformTopic : Option (GenerateFreeformTopicParams → Except Unit FreeformTopicSuggestion))
    (prompt : Option FreeformTopicPrompt) (audioSummary : Option AudioHighlightsSummary)
    (synth : TranscriptSynthesisResult) (s : FreeformTopicSuggestion)
    (h : maybeGenerateFreeformTopic generateFreeformTopic prompt audioSummary synth = some s) :
    ∃ g suggestion, generateFreeformTopic = some g ∧
      g (freeformParamsOf prompt audioSummary synth) = .ok suggestion ∧
      s = { suggestion with
        toneGuidance := some (jsOr (optTrim suggestion.toneGuidance)
          DEFAULT_FREEFORM_TONE_GUIDANCE) } := by
  rcases generateFreeformTopic with _ | g
  · simp [maybeGenerateFreeformTopic] at h
  · simp only [maybeGenerateFreeformTopic] at h
    rcases hg : g (freeformParamsOf prompt audioSummary synth) with e | suggestion <;>
      rw [hg] at h
    · simp at h
    · refine ⟨g, suggestion, rfl, hg, ?_⟩
      cases h
      rfl

/-- A freeform-topic dependency whose successful suggestions all come from
the repository's own drafter (`createFreeformTopicGenerator`), for some
`draftCopy` backend and options. -/
def DrafterShaped
    (g : GenerateFreeformTopicParams → Except Unit FreeformTopicSuggestion) : Prop :=
  ∀ p s, g p = .ok s →
    ∃ draftCopy options, s = createFreeformTopicGenerator draftCopy options p

/-- C1: on every successful assembly whose freeform dependency (when
present) is the repository drafter, `mainUpdates` is non-empty and the
`freeformTopic` has a non-empty title and body; when no decisions,
insights or audio highlights exist the single `Main Updates` placeholder
section is produced. -/
theorem assembler_nonempty_sections (request : NewsletterGenerationRequest)
    (audioData : Option (List Nat)) (deps : AssembleNewsletterDependencies)
    (dateNow : Nat → Int) (formatDueDate : String → String)
    (resp : NewsletterGenerationResponse)
    (hdrafter : ∀ g, deps.generateFreeformTopic = some g → DrafterShaped g)
    (h : assembleNewsletter request audioData deps dateNow formatDueDate = .ok resp) :
    resp.sections.mainUpdates ≠ [] ∧
    resp.sections.freeformTopic.title ≠ "" ∧
    resp.sections.freeformTopic.body ≠ "" ∧
    (∀ synth audioSummary gid, synth.decisions = [] → synth.insights = [] →
      (∀ a, audioSummary = some a → a.highlights = []) →
      buildMainUpdatesSections synth audioSummary gid =
        [{ id := genId gid "main-updates-overview"
           title := "Main Updates"
           body := MAIN_UPDATES_PLACEHOLDER_BODY }]) := by
  obtain ⟨synth, hsy, hresp⟩ := assemble_ok_inv _ _ _ _ _ _ h
  subst hresp
  have hff : (mkAssembleResponse request
      (maybeSummarizeAudio deps.summarizeAudio
        { audio := request.audio, audioData := audioData })
      synth deps dateNow formatDueDate).sections.freeformTopic =
      (maybeGenerateFreeformTopic deps.generateFreeformTopic request.freeformTopicPrompt
        (maybeSummarizeAudio deps.summarizeAudio
          { audio := request.audio, audioData := audioData }) synth).getD
        (buildFreeformSuggestion request.freeformTopicPrompt) :=
    mkAssembleResponse_freeformTopic _ _ _ _ _ _
  have hfreeform :
      (mkAssembleResponse request
        (maybeSummarizeAudio deps.summarizeAudio
          { audio := request.audio, audioData := audioData })
        synth deps dateNow formatDueDate).sections.freeformTopic.title ≠ "" ∧
      (mkAssembleResponse request
        (maybeSummarizeAudio deps.summarizeAudio
          { audio := request.audio, audioData := audioData })
        synth deps dateNow formatDueDate).sections.freeformTopic.body ≠ "" := by
    rw [hff]
    rcases hm : maybeGenerateFreeformTopic deps.generateFreeformTopic
        request.freeformTopicPrompt
        (maybeSummarizeAudio deps.summarizeAudio
          { audio := request.audio, audioData := audioData }) synth with _ | s
    · simpa using buildFreeformSuggestion_nonempty request.freeformTopicPrompt
    · obtain ⟨g, suggestion, hg, hcall, hs⟩ := maybeGenerate_some_inv _ _ _ _ _ hm
      obtain ⟨draftCopy, options, hsugg⟩ := hdrafter g hg _ _ hcall
      subst hs
      subst hsugg
      simpa using createFreeformTopicGenerator_nonempty draftCopy options _
  refine ⟨?_, hfreeform.1, hfreeform.2, ?_⟩
  · rw [mkAssembleResponse_mainUpdates]
    exact buildMainUpdatesSections_ne_nil _ _ _
  · intro synth' audioSummary' gid hd hi hh
    rcases audioSummary' with _ | a
    · simp [buildMainUpdatesSections, hd, hi, formatDecisions, formatInsightsAndHighlights,
        jsStrTruthy]
    · have ha := hh a rfl
      simp [buildMainUpdatesSections, hd, hi, ha, formatDecisions,
        formatInsightsAndHighlights, jsStrTruthy]

/-- A content synthesis result used by concrete assembler runs. -/
def sampleSynthesis : TranscriptSynthesisResult :=
  { summary := "We shipped the new feature."
    decisions := []
    actionItems := []
    insights := []
    metadata :=
      { usedRecap := true
        usedTranscript := false
        combinedCharacterCount := 27 } }

/-- A minimal request (recap only, no audio, no prompt). -/
def sampleRequest : NewsletterGenerationRequest :=
  { meetingRecap := { text := some "We shipped the new feature." }
    transcript := { text := some "" } }

/-- Assembler dependencies: synthesis succeeds, everything else absent. -/
def sampleAssembleDeps : AssembleNewsletterDependencies :=
  { synthesizeContent := fun _ => .ok sampleSynthesis }

/-- Witness for the C1 theorem at a concrete minimal run. -/
theorem assembler_nonempty_sections_witness :
    ∃ resp, assembleNewsletter sampleRequest none sampleAssembleDeps
        (fun _ => 0) (fun s => s) = .ok resp ∧
      resp.sections.mainUpdates ≠ [] ∧
      resp.sections.freeformTopic.title ≠ "" ∧
      resp.sections.freeformTopic.body ≠ "" := by
  obtain ⟨resp, hresp⟩ : ∃ r, assembleNewsletter sampleRequest none sampleAssembleDeps
      (fun _ => 0) (fun s => s) = .ok r := ⟨_, rfl⟩
  obtain ⟨h1, h2, h3, -⟩ := assembler_nonempty_sections sampleRequest none sampleAssembleDeps
    (fun _ => 0) (fun s => s) resp
    (fun g hg => absurd hg (by simp [sampleAssembleDeps])) hresp
  exact ⟨resp, hresp, h1, h2, h3⟩

/-- C4 (amended): `processingTimeMs` is the difference of two readings of
the **ambient** `Date.now()` clock (the reading at completion minus the
reading at entry), while the injected `now` dependency determines only
`createdAt`. -/
theorem assembler_processing_time (request : NewsletterGenerationRequest)
    (audioData : Option (List Nat)) (deps : AssembleNewsletterDependencies)
    (dateNow : Nat → Int) (formatDueDate : String → String)
    (resp : NewsletterGenerationResponse)
    (h : assembleNewsletter request audioData deps dateNow formatDueDate = .ok resp) :
    resp.metadata.processingTimeMs = some (dateNow (ambientEndIndex deps) - dateNow 0) ∧
    resp.metadata.createdAt = createdAtOf deps dateNow := by
  obtain ⟨synth, -, hresp⟩ := assemble_ok_inv _ _ _ _ _ _ h
  subst hresp
  rw [mkAssembleResponse_metadata]
  exact ⟨rfl, rfl⟩

/-- Assembler dependencies with a constant injected `now` clock. -/
def constNowDeps : AssembleNewsletterDependencies :=
  { synthesizeContent := fun _ => .ok sampleSynthesis
    now := some (fun _ => 100) }

/-- C4 refutation: two runs that differ only in the ambient `Date.now()`
stream — the injected `now` is the same constant clock in both — report
different `processingTimeMs` (7 and 3), and neither equals any difference
of readings of the injected clock (all 0). So `processingTimeMs` is not
the elapsed time observed through the injected `now` dependency. -/
theorem c4_counterexample :
    (assembleNewsletter sampleRequest none constNowDeps
        (fun i => if i = 0 then 0 else 7) (fun s => s)).map
      (fun r => r.metadata.processingTimeMs) = .ok (some 7) ∧
    (assembleNewsletter sampleRequest none constNowDeps
        (fun i => if i = 0 then 0 else 3) (fun s => s)).map
      (fun r => r.metadata.processingTimeMs) = .ok (some 3) ∧
    (some (7 : Int) ≠ some (3 : Int)) ∧
    ((7 : Int) ≠ 100 - 100) := by
  refine ⟨rfl, rfl, by decide, by decide⟩

/-- Witness for the amended C4 theorem at a concrete run. -/
theorem assembler_processing_time_witness :
    ∃ resp, assembleNewsletter sampleRequest none constNowDeps
        (fun i => if i = 0 then 0 else 7) (fun s => s) = .ok resp ∧
      resp.metadata.processingTimeMs =
        some ((fun i => if i = 0 then (0 : Int) else 7) (ambientEndIndex constNowDeps) -
          (fun i => if i = 0 then (0 : Int) else 7) 0) ∧
      resp.metadata.createdAt =
        createdAtOf constNowDeps (fun i => if i = 0 then 0 else 7) := by
  obtain ⟨resp, hresp⟩ : ∃ r, assembleNewsletter sampleRequest none constNowDeps
      (fun i => if i = 0 then 0 else 7) (fun s => s) = .ok r := ⟨_, rfl⟩
  obtain ⟨h1, h2⟩ := assembler_processing_time sampleRequest none constNowDeps
    (fun i => if i = 0 then 0 else 7) (fun s => s) resp hresp
  exact ⟨resp, hresp, h1, h2⟩

/-- The prompt refuting C5 as stated: a blank topic with instructions. -/
def offsitePrompt : FreeformTopicPrompt :=
  { topic := " ", instructions := some "Mention the offsite." }

/-- C5 refutation: the assembler's fallback does **not** follow the same
rules as the drafter's own fallback — with instructions present, the
assembler's fallback body prepends them, while the drafter's fallback body
is always the default filler. -/
theorem c5_counterexample :
    (buildFreeformSuggestion (some offsitePrompt)).body ≠
      (buildFallbackSuggestion (normalizePrompt (some offsitePrompt))
        DEFAULT_TONE_GUIDANCE).body ∧
    (buildFreeformSuggestion (some offsitePrompt)).body =
      "Mention the offsite.\n\nUse this space to add any announcements or highlights that didn\x27t fit into the main sections. Update the copy as needed before sharing." ∧
    (buildFallbackSuggestion (normalizePrompt (some offsitePrompt))
      DEFAULT_TONE_GUIDANCE).body = DEFAULT_BODY := by
  refine ⟨by decide, rfl, rfl⟩

/-- C5 (amended): the assembler's freeform fallback agrees with the
drafter's fallback (applied to the normalized request prompt with the
default tone) on `title`, `isPromptAligned` and `toneGuidance`; its body
prepends the trimmed prompt instructions, when present, to the drafter's
fallback body. In particular, with no prompt and no drafting dependency
the final section is present with title `"Additional Topic"` and
`isPromptAligned = false`. -/
theorem assembler_freeform_fallback_rules (prompt : Option FreeformTopicPrompt) :
    (buildFreeformSuggestion prompt).title =
      (buildFallbackSuggestion (normalizePrompt prompt) DEFAULT_TONE_GUIDANCE).title ∧
    (buildFreeformSuggestion prompt).isPromptAligned =
      (buildFallbackSuggestion (normalizePrompt prompt) DEFAULT_TONE_GUIDANCE).isPromptAligned ∧
    (buildFreeformSuggestion prompt).toneGuidance =
      (buildFallbackSuggestion (normalizePrompt prompt) DEFAULT_TONE_GUIDANCE).toneGuidance ∧
    (buildFreeformSuggestion prompt).body =
      (match jsStrTruthy ((prompt.bind (·.instructions)).map jsTrim) with
       | some i =>
         i ++ "\n\n" ++ (buildFallbackSuggestion (normalizePrompt prompt)
           DEFAULT_TONE_GUIDANCE).body
       | none =>
         (buildFallbackSuggestion (normalizePrompt prompt) DEFAULT_TONE_GUIDANCE).body) ∧
    (∀ request audioData deps dateNow formatDueDate
        (resp : NewsletterGenerationResponse),
      deps.generateFreeformTopic = none →
      request.freeformTopicPrompt = none →
      assembleNewsletter request audioData deps dateNow formatDueDate = .ok resp →
      resp.sections.freeformTopic.title = "Additional Topic" ∧
      resp.sections.freeformTopic.isPromptAligned = some false) := by
  refine ⟨?_, ?_, ?_, ?_, ?_⟩
  · rcases prompt with _ | ⟨topic, instructions⟩
    · decide
    · simp only [buildFreeformSuggestion, buildFallbackSuggestion, normalizePrompt]
      by_cases ht : jsTrim topic = "" <;>
        by_cases hi : jsStrTruthy (instructions.map jsTrim) = none <;>
          simp [ht, hi, jsOrStr, DEFAULT_TITLE]
  · rcases prompt with _ | ⟨topic, instructions⟩
    · decide
    · simp only [buildFreeformSuggestion, buildFallbackSuggestion, normalizePrompt,
        Option.bind]
      rcases instructions with _ | ins
      · by_cases ht : jsTrim topic = "" <;> simp [ht, jsStrTruthy, optStrTruthy]
      · by_cases ht : jsTrim topic = "" <;> by_cases hins : jsTrim ins = "" <;>
          simp [ht, hins, jsStrTruthy, optStrTruthy]
  · exact show some DEFAULT_FREEFORM_TONE_GUIDANCE = some DEFAULT_TONE_GUIDANCE by decide
  · rcases prompt with _ | ⟨topic, instructions⟩
    · decide
    · simp only [buildFreeformSuggestion, buildFallbackSuggestion, Option.bind]
      rcases hi : jsStrTruthy (instructions.map jsTrim) with _ | i <;>
        simp [hi, jsJoin, DEFAULT_BODY]
  · intro request audioData deps dateNow formatDueDate resp hg0 hp0 h
    obtain ⟨synth, -, hresp⟩ := assemble_ok_inv _ _ _ _ _ _ h
    subst hresp
    rw [mkAssembleResponse_freeformTopic, hg0, hp0]
    constructor <;>
      simp [maybeGenerateFreeformTopic, buildFreeformSuggestion, jsOrStr, optStrTruthy,
        jsStrTruthy]

/-- Witness for the amended C5 theorem: the blank-topic prompt with
instructions, and a concrete promptless run for the scenario clause. -/
theorem assembler_freeform_fallback_rules_witness :
    (buildFreeformSuggestion (some offsitePrompt)).title =
      (buildFallbackSuggestion (normalizePrompt (some offsitePrompt))
        DEFAULT_TONE_GUIDANCE).title ∧
    ∃ resp, assembleNewsletter sampleRequest none sampleAssembleDeps
        (fun _ => 0) (fun s => s) = .ok resp ∧
      resp.sections.freeformTopic.title = "Additional Topic" ∧
      resp.sections.freeformTopic.isPromptAligned = some false := by
  obtain ⟨resp, hresp⟩ : ∃ r, assembleNewsletter sampleRequest none sampleAssembleDeps
      (fun _ => 0) (fun s => s) = .ok r := ⟨_, rfl⟩
  obtain ⟨h1, -, -, -, h5⟩ := assembler_freeform_fallback_rules (some offsitePrompt)
  obtain ⟨ht, ha⟩ := h5 sampleRequest none sampleAssembleDeps (fun _ => 0) (fun s => s) resp
    (by simp [sampleAssembleDeps]) (by simp [sampleRequest]) hresp
  exact ⟨h1, resp, hresp, ht, ha⟩

/-- The two action items of the C6 scenario, as they reach the assembler
(the ids are irrelevant to rendering and empty in the scenario). -/
def c6Items : List ActionItem :=
  [{ id := "", summary := "  " },
   { id := "", summary := "Ship release", owner := some "Sam" }]

/-- The number of `•` bullets in a rendered body. -/
def countBullets (s : String) : Nat :=
  s.data.count '•'

/-- C6 refutation: with those two items reaching the assembler, the
rendered Action Items body holds **two** bullets — the blank summary is
defaulted to `Follow up item 1`, not dropped — so it does not contain
exactly one bullet. -/
theorem c6_counterexample :
    (buildActionItemsSection c6Items none (fun s => s)).body =
      "• Follow up item 1\n• Ship release — Owner: Sam" ∧
    ¬ (countBullets (buildActionItemsSection c6Items none (fun s => s)).body = 1) := by
  refine ⟨rfl, by decide⟩

/-- C6 (amended): rendering the two scenario items yields exactly two
bullets, one per item — `• Follow up item 1` for the blank summary
(positional default) and `• Ship release — Owner: Sam` for the second
item with its trimmed owner. -/
theorem action_items_section_rendering :
    (buildActionItemsSection c6Items none (fun s => s)).body =
      "• Follow up item 1\n• Ship release — Owner: Sam" ∧
    countBullets (buildActionItemsSection c6Items none (fun s => s)).body = 2 ∧
    (buildActionItemsSection c6Items none (fun s => s)).items =
      [{ id := "", summary := "Follow up item 1" },
       { id := "", summary := "Ship release", owner := some "Sam" }] := by
  refine ⟨rfl, by decide, rfl⟩

end NewsletterGen
